import Mathlib

/-!
# QtGigECam: the frame acquisition and exchange core of `PylonCam`

A shallow embedding of `src/pyloncam.cpp`.

* The member variables of the class are the fields of the structure `PylonCam`.
* Calls into the camera SDK (Pylon), into the imaging library (MIL) and on the mutex
  `m_copyMutex` are recorded, in program order, as a list of `Event`s emitted by the
  thread that executes the method.
* Whatever the SDK, the mutex or the other thread decide (result codes, readiness,
  the context tag of a completed transfer, whether `tryLock` succeeds) is an input of
  the model: one `Iteration` record per turn of the acquisition loop, one `StartEnv`
  record per call of `startCapture`, one `OpenEnv` record per call of `open`.
* `NUM_BUFFERS` is a constant of `pyloncam.h`, which is not among the sources; every
  definition that uses it takes it as a parameter, so the theorems hold for every
  pool size.
-/

namespace QtGigECam

/-! ## Result codes -/

/-- Result code type of the Pylon C SDK. -/
abbrev GENAPIC_RESULT := Int

/-- The success code of the SDK. The constant comes from the SDK headers; the
theorems below only use that it is one fixed value. -/
def GENAPI_E_OK : GENAPIC_RESULT := 0

/-- The method `PylonCam::isError` (lines 36-39). -/
def isError (result : GENAPIC_RESULT) : Bool :=
  result != GENAPI_E_OK

/-! ## Object state -/

/-- Member variables of `PylonCam`. Handles and MIL identifiers are numbers, `0` being
the null handle. `m_buff i` tells whether the pointer `m_buff[i]` is non-NULL, and
`m_hBuff i` is the transport handle of slot `i`. -/
structure PylonCam where
  m_hDev : Nat
  m_hGrabber : Nat
  m_hWait : Nat
  m_payloadSize : Int
  m_imgWidth : Int
  m_imgHeight : Int
  m_milBayerImageBuf : Nat
  m_milWBCoefficients : Nat
  m_copyBuffIndex : Int
  m_stopThread : Bool
  m_buff : Nat → Bool
  m_hBuff : Nat → Nat

/-- The constructor `PylonCam::PylonCam` (lines 3-27). `m_stopThread` is not written by
the constructor; it is written by `startCapture` before the thread starts. -/
def PylonCam.init : PylonCam where
  m_hDev := 0
  m_hGrabber := 0
  m_hWait := 0
  m_payloadSize := 0
  m_imgWidth := 0
  m_imgHeight := 0
  m_milBayerImageBuf := 0
  m_milWBCoefficients := 0
  m_copyBuffIndex := -1
  m_stopThread := false
  m_buff := fun _ => false
  m_hBuff := fun _ => 0

/-- The method `PylonCam::isOpen` (lines 102-105). -/
def isOpen (self : PylonCam) : Bool :=
  self.m_hDev != 0

/-! ## Events of the acquisition core -/

/-- What a thread does to the outside while it runs `getNextFrame` or `run`.

* `lock`, `tryLock acquired`, `unlock`: operations on `m_copyMutex`;
* `waitObjectWait`: `PylonWaitObjectWait(m_hWait, 1000, &isReady)`;
* `retrieveResult`: `PylonStreamGrabberRetrieveResult(m_hGrabber, &grabResult, &isReady)`;
* `mbufPut index`: `MbufPut(m_milBayerImageBuf, m_buff[index])`;
* `mbufBayer buf_id`: `MbufBayer(m_milBayerImageBuf, buf_id, m_milWBCoefficients, ...)`;
* `queueBuffer index`:
  `PylonStreamGrabberQueueBuffer(m_hGrabber, m_hBuff[index], (void *) index)`. -/
inductive Event where
  | lock
  | tryLock (acquired : Bool)
  | unlock
  | waitObjectWait
  | retrieveResult
  | mbufPut (index : Int)
  | mbufBayer (buf_id : Nat)
  | queueBuffer (index : Int)
  deriving DecidableEq, Repr

/-- The slots handed back to the transport by the `queueBuffer` calls of a trace,
in order. -/
def queuedSlots : List Event → List Int
  | [] => []
  | Event.queueBuffer index :: es => index :: queuedSlots es
  | _ :: es => queuedSlots es

/-- The calls issued between each acquisition of the mutex and its release: one list
per critical section, in order. The first argument is the section that is open at
the start of the trace, if any. -/
def lockedSections : Option (List Event) → List Event → List (List Event)
  | none, [] => []
  | some sec, [] => [sec]
  | _, Event.lock :: es => lockedSections (some []) es
  | _, Event.tryLock true :: es => lockedSections (some []) es
  | cur, Event.tryLock false :: es => lockedSections cur es
  | none, Event.unlock :: es => lockedSections none es
  | some sec, Event.unlock :: es => sec :: lockedSections none es
  | none, _ :: es => lockedSections none es
  | some sec, e :: es => lockedSections (some (sec ++ [e])) es

/-! ## The consumer: `getNextFrame` -/

/-- The locked section of `getNextFrame` (lines 162-167): from the value of
`m_copyBuffIndex` to the pair of the local `index` and the new `m_copyBuffIndex`. -/
def takeIndex (m_copyBuffIndex : Int) : Int × Int :=
  if m_copyBuffIndex ≥ 0 then (m_copyBuffIndex, -1) else (-1, m_copyBuffIndex)

/-- Outcome of a call of `getNextFrame`. -/
structure FrameResult where
  ret : Bool
  cam : PylonCam
  trace : List Event

/-- The method `PylonCam::getNextFrame` (lines 156-177). -/
def getNextFrame (self : PylonCam) (buf_id : Nat) : FrameResult :=
  let taken := takeIndex self.m_copyBuffIndex
  let index := taken.1
  let self := { self with m_copyBuffIndex := taken.2 }
  if index > 0 then
    { ret := true
      cam := self
      trace := [Event.lock, Event.unlock, Event.mbufPut index, Event.mbufBayer buf_id,
        Event.queueBuffer index] }
  else
    { ret := false, cam := self, trace := [Event.lock, Event.unlock] }

/-! ## The producer: `run` -/

/-- Everything one turn of the loop of `run` receives from outside.

* `stopRequested`: the other thread executed line 140 of `stopCapture`
  (`m_stopThread = true`) since the previous turn;
* `framePulled`: the other thread executed the locked section of `getNextFrame`
  (lines 162-167) since the previous turn;
* `waitResult`, `waitIsReady`: what `PylonWaitObjectWait` answers (line 187);
* `retrieveResult`, `retrieveIsReady`, `Context`: what
  `PylonStreamGrabberRetrieveResult` answers (line 194), `Context` being
  `(int) grabResult.Context`;
* `tryLock`: what `m_copyMutex.tryLock()` answers (line 206). -/
structure Iteration where
  stopRequested : Bool
  framePulled : Bool
  waitResult : GENAPIC_RESULT
  waitIsReady : Bool
  retrieveResult : GENAPIC_RESULT
  retrieveIsReady : Bool
  Context : Int
  tryLock : Bool

/-- The writes of the other thread to the shared members before a turn of the loop. -/
def interfere (o : Iteration) (self : PylonCam) : PylonCam :=
  let self := if o.stopRequested then { self with m_stopThread := true } else self
  if o.framePulled then
    { self with m_copyBuffIndex := (takeIndex self.m_copyBuffIndex).2 }
  else self

/-- Outcome of one turn of the loop: `exit` is true when the loop is left (the loop
condition fails or a `break` is taken). -/
structure Step where
  cam : PylonCam
  trace : List Event
  exit : Bool

/-- One turn of the `while` loop of `PylonCam::run` (lines 186-217). -/
def runIteration (NUM_BUFFERS : Nat) (self : PylonCam) (o : Iteration) : Step :=
  let self := interfere o self
  if self.m_stopThread then
    { cam := self, trace := [], exit := true }
  else if isError o.waitResult then
    { cam := self, trace := [Event.waitObjectWait], exit := true }
  else if !o.waitIsReady then
    { cam := self, trace := [Event.waitObjectWait], exit := false }
  else if isError o.retrieveResult then
    { cam := self, trace := [Event.waitObjectWait, Event.retrieveResult], exit := true }
  else if !o.retrieveIsReady then
    { cam := self, trace := [Event.waitObjectWait, Event.retrieveResult], exit := false }
  else
    let index := o.Context
    if index < 0 || index ≥ (NUM_BUFFERS : Int) then
      { cam := self, trace := [Event.waitObjectWait, Event.retrieveResult], exit := true }
    else if o.tryLock then
      if self.m_copyBuffIndex < 0 then
        { cam := { self with m_copyBuffIndex := index }
          trace := [Event.waitObjectWait, Event.retrieveResult, Event.tryLock true,
            Event.unlock]
          exit := false }
      else
        { cam := self
          trace := [Event.waitObjectWait, Event.retrieveResult, Event.tryLock true,
            Event.queueBuffer index, Event.unlock]
          exit := false }
    else
      { cam := self
        trace := [Event.waitObjectWait, Event.retrieveResult, Event.tryLock false,
          Event.queueBuffer index]
        exit := false }

/-- Outcome of an execution of `run` over a finite list of turns: `exited` tells
whether the loop was left, `pending` are the turns that were never executed. -/
structure RunResult where
  cam : PylonCam
  trace : List Event
  exited : Bool
  pending : List Iteration

/-- The method `PylonCam::run` (lines 179-218), executed over the given turns. -/
def run (NUM_BUFFERS : Nat) (self : PylonCam) : List Iteration → RunResult
  | [] => { cam := self, trace := [], exited := false, pending := [] }
  | o :: rest =>
    let st := runIteration NUM_BUFFERS self o
    if st.exit then
      { cam := st.cam, trace := st.trace, exited := true, pending := rest }
    else
      let r := run NUM_BUFFERS st.cam rest
      { cam := r.cam, trace := st.trace ++ r.trace, exited := r.exited,
        pending := r.pending }

/-- A turn in which a transfer completes for slot `Context`: no stop request, the wait
is signalled and the result is retrieved without error. -/
def completion (Context : Int) (framePulled tryLock : Bool) : Iteration where
  stopRequested := false
  framePulled := framePulled
  waitResult := GENAPI_E_OK
  waitIsReady := true
  retrieveResult := GENAPI_E_OK
  retrieveIsReady := true
  Context := Context
  tryLock := tryLock

/-! ## Starting a session: `startCapture` -/

/-- What the SDK answers to the calls of `startCapture`, one field per call site.
`registerBuffer i` and `queueBuffer i` are the answers for slot `i`; `hGrabber`,
`hWait` and `hBuff i` are the handles the SDK hands out. An output parameter is
written when the call succeeds. -/
structure StartEnv where
  getNumStreamGrabberChannels : GENAPIC_RESULT
  num_streams : Nat
  getStreamGrabber : GENAPIC_RESULT
  hGrabber : Nat
  streamGrabberOpen : GENAPIC_RESULT
  getWaitObject : GENAPIC_RESULT
  hWait : Nat
  setMaxNumBuffer : GENAPIC_RESULT
  setMaxBufferSize : GENAPIC_RESULT
  prepareGrab : GENAPIC_RESULT
  registerBuffer : Nat → GENAPIC_RESULT
  hBuff : Nat → Nat
  queueBuffer : Nat → GENAPIC_RESULT
  acquisitionStart : GENAPIC_RESULT

/-- The state of the session outside the object: whether the stream grabber has been
opened, which slots are registered with it, which slots are queued with it, whether
the camera has been told to acquire, and whether the producer thread has been
started. A call changes it when it succeeds. -/
structure Session where
  grabberOpen : Bool
  registered : List Nat
  queued : List Nat
  acquiring : Bool
  threadStarted : Bool
  deriving DecidableEq, Repr

/-- The session before `startCapture` was ever called. -/
def Session.idle : Session where
  grabberOpen := false
  registered := []
  queued := []
  acquiring := false
  threadStarted := false

/-- Outcome of a method that returns `bool` and acts on the session. -/
structure CallResult where
  ret : Bool
  cam : PylonCam
  session : Session

/-- The method `PylonCam::openStreamGrabber` (lines 348-373). -/
def openStreamGrabber (env : StartEnv) (self : PylonCam) (t : Session) : CallResult :=
  if isError env.getNumStreamGrabberChannels then
    { ret := false, cam := self, session := t }
  else if env.num_streams < 1 then
    { ret := false, cam := self, session := t }
  else if isError env.getStreamGrabber then
    { ret := false, cam := self, session := t }
  else
    let self := { self with m_hGrabber := env.hGrabber }
    if isError env.streamGrabberOpen then
      { ret := false, cam := self, session := t }
    else
      let t := { t with grabberOpen := true }
      if isError env.getWaitObject then
        { ret := false, cam := self, session := t }
      else
        { ret := true, cam := { self with m_hWait := env.hWait }, session := t }

/-- The first loop of `prepareBuffers` (lines 399-403), from slot `i` on, with
`remaining` slots to go. -/
def registerLoop (env : StartEnv) : Nat → Nat → PylonCam → Session → CallResult
  | 0, _, self, t => { ret := true, cam := self, session := t }
  | remaining + 1, i, self, t =>
    if isError (env.registerBuffer i) then
      { ret := false, cam := self, session := t }
    else
      registerLoop env remaining (i + 1)
        { self with m_hBuff := Function.update self.m_hBuff i (env.hBuff i) }
        { t with registered := t.registered ++ [i] }

/-- The second loop of `prepareBuffers` (lines 405-409), from slot `i` on, with
`remaining` slots to go. -/
def queueLoop (env : StartEnv) : Nat → Nat → PylonCam → Session → CallResult
  | 0, _, self, t => { ret := true, cam := self, session := t }
  | remaining + 1, i, self, t =>
    if isError (env.queueBuffer i) then
      { ret := false, cam := self, session := t }
    else
      queueLoop env remaining (i + 1) self { t with queued := t.queued ++ [i] }

/-- The method `PylonCam::prepareBuffers` (lines 383-412). -/
def prepareBuffers (NUM_BUFFERS : Nat) (env : StartEnv) (self : PylonCam) (t : Session) :
    CallResult :=
  if isError env.setMaxNumBuffer then
    { ret := false, cam := self, session := t }
  else if isError env.setMaxBufferSize then
    { ret := false, cam := self, session := t }
  else if isError env.prepareGrab then
    { ret := false, cam := self, session := t }
  else
    let r := registerLoop env NUM_BUFFERS 0 self t
    if !r.ret then
      { ret := false, cam := r.cam, session := r.session }
    else
      queueLoop env NUM_BUFFERS 0 r.cam r.session

/-- The method `PylonCam::startCapture` (lines 114-134). -/
def startCapture (NUM_BUFFERS : Nat) (env : StartEnv) (self : PylonCam) (t : Session) :
    CallResult :=
  let r := openStreamGrabber env self t
  if !r.ret then
    { ret := false, cam := r.cam, session := r.session }
  else
    let r := prepareBuffers NUM_BUFFERS env r.cam r.session
    if !r.ret then
      { ret := false, cam := r.cam, session := r.session }
    else if isError env.acquisitionStart then
      { ret := false, cam := r.cam, session := r.session }
    else
      { ret := true
        cam := { r.cam with m_copyBuffIndex := -1, m_stopThread := false }
        session := { r.session with acquiring := true, threadStarted := true } }

/-- Every step of `startCapture` succeeds: no call answers with an error and there is
at least one stream grabber channel. -/
def StartEnv.allOk (NUM_BUFFERS : Nat) (env : StartEnv) : Bool :=
  !isError env.getNumStreamGrabberChannels && decide (1 ≤ env.num_streams)
    && !isError env.getStreamGrabber && !isError env.streamGrabberOpen
    && !isError env.getWaitObject && !isError env.setMaxNumBuffer
    && !isError env.setMaxBufferSize && !isError env.prepareGrab
    && (List.range NUM_BUFFERS).all (fun i => !isError (env.registerBuffer i))
    && (List.range NUM_BUFFERS).all (fun i => !isError (env.queueBuffer i))
    && !isError env.acquisitionStart

/-! ## Opening and closing the camera: `open`, `close` -/

/-- What the SDK, MIL and the allocator answer to the calls of `open`, one field per
call site. `mbufAllocColor` and `mbufAlloc1d` are the identifiers MIL returns (`0`
when the allocation fails); `newBuffer i` tells whether `new` yields a non-NULL
pointer for slot `i`. An output parameter is written when the call succeeds. -/
structure OpenEnv where
  enumerateDevices : GENAPIC_RESULT
  num_devices : Nat
  createDeviceByIndex : GENAPIC_RESULT
  hDev : Nat
  deviceOpen : GENAPIC_RESULT
  bayerBG8Available : Bool
  pixelFormatBayerBG8 : GENAPIC_RESULT
  acquisitionStartAvailable : Bool
  selectAcquisitionStart : GENAPIC_RESULT
  acquisitionStartOff : GENAPIC_RESULT
  frameStartAvailable : Bool
  selectFrameStart : GENAPIC_RESULT
  frameStartOff : GENAPIC_RESULT
  acquisitionModeContinuous : GENAPIC_RESULT
  packetSizeWritable : Bool
  setPacketSize : GENAPIC_RESULT
  getPayloadSize : GENAPIC_RESULT
  payloadSize : Int
  widthReadable : Bool
  heightReadable : Bool
  getWidth : GENAPIC_RESULT
  width : Int
  getHeight : GENAPIC_RESULT
  height : Int
  mbufAllocColor : Nat
  mbufAlloc1d : Nat
  newBuffer : Nat → Bool

/-- The method `PylonCam::openDevice` (lines 220-244). -/
def openDevice (env : OpenEnv) (device : Nat) (self : PylonCam) : Bool × PylonCam :=
  if isError env.enumerateDevices then (false, self)
  else if env.num_devices < device + 1 then (false, self)
  else if isError env.createDeviceByIndex then (false, self)
  else
    let self := { self with m_hDev := env.hDev }
    if isError env.deviceOpen then (false, { self with m_hDev := 0 })
    else (true, self)

/-- The method `PylonCam::setPixelFormat` (lines 246-263). -/
def setPixelFormat (env : OpenEnv) (color : Bool) : Bool :=
  if color then
    if !env.bayerBG8Available then false
    else if isError env.pixelFormatBayerBG8 then false
    else true
  else false

/-- The method `PylonCam::setTriggerMode` (lines 265-290). -/
def setTriggerMode (env : OpenEnv) : Bool :=
  if env.acquisitionStartAvailable && (isError env.selectAcquisitionStart
      || isError env.acquisitionStartOff) then false
  else if env.frameStartAvailable && (isError env.selectFrameStart
      || isError env.frameStartOff) then false
  else true

/-- The method `PylonCam::setAcquisitionMode` (lines 292-301). -/
def setAcquisitionMode (env : OpenEnv) : Bool :=
  if isError env.acquisitionModeContinuous then false else true

/-- The method `PylonCam::setPacketSize` (lines 303-314). -/
def setPacketSize (env : OpenEnv) : Bool :=
  if env.packetSizeWritable && isError env.setPacketSize then false else true

/-- The method `PylonCam::getPayloadSize` (lines 316-325). -/
def getPayloadSize (env : OpenEnv) (self : PylonCam) : Bool × PylonCam :=
  if isError env.getPayloadSize then (false, self)
  else (true, { self with m_payloadSize := env.payloadSize })

/-- The method `PylonCam::getImageDimensions` (lines 327-346). -/
def getImageDimensions (env : OpenEnv) (self : PylonCam) : Bool × PylonCam :=
  if !env.widthReadable then (false, self)
  else if !env.heightReadable then (false, self)
  else if isError env.getWidth then (false, self)
  else
    let self := { self with m_imgWidth := env.width }
    if isError env.getHeight then (false, self)
    else (true, { self with m_imgHeight := env.height })

/-- The body of the loop of `freeBuffers` (lines 461-464), for slot `i`. -/
def freeBuffer (self : PylonCam) (i : Nat) : PylonCam :=
  if self.m_buff i then { self with m_buff := Function.update self.m_buff i false }
  else self

/-- The method `PylonCam::freeBuffers` (lines 458-466): the loop body for
`i = 0, ..., NUM_BUFFERS - 1`. -/
def freeBuffers (NUM_BUFFERS : Nat) (self : PylonCam) : PylonCam :=
  (List.range NUM_BUFFERS).foldl freeBuffer self

/-- The loop of `allocateBuffers` (lines 446-453), from slot `i` on, with `remaining`
slots to go. -/
def allocateLoop (NUM_BUFFERS : Nat) (env : OpenEnv) : Nat → Nat → PylonCam → Bool × PylonCam
  | 0, _, self => (true, self)
  | remaining + 1, i, self =>
    let self := { self with m_buff := Function.update self.m_buff i (env.newBuffer i) }
    if !self.m_buff i then (false, freeBuffers NUM_BUFFERS self)
    else allocateLoop NUM_BUFFERS env remaining (i + 1) self

/-- The method `PylonCam::allocateBuffers` (lines 439-456). -/
def allocateBuffers (NUM_BUFFERS : Nat) (env : OpenEnv) (self : PylonCam) : Bool × PylonCam :=
  let self := freeBuffers NUM_BUFFERS self
  if self.m_payloadSize < 1 then (false, self)
  else allocateLoop NUM_BUFFERS env NUM_BUFFERS 0 self

/-- The method `PylonCam::allocateBayerBuffers` (lines 468-494). -/
def allocateBayerBuffers (env : OpenEnv) (self : PylonCam) : Bool × PylonCam :=
  let self :=
    if self.m_milBayerImageBuf = 0 then { self with m_milBayerImageBuf := env.mbufAllocColor }
    else self
  if self.m_milBayerImageBuf = 0 then (false, self)
  else
    let self :=
      if self.m_milWBCoefficients = 0 then
        { self with m_milWBCoefficients := env.mbufAlloc1d }
      else self
    if self.m_milWBCoefficients = 0 then (false, self)
    else (true, self)

/-- The method `PylonCam::freeBayerBuffers` (lines 496-507). -/
def freeBayerBuffers (self : PylonCam) : PylonCam :=
  let self := if self.m_milBayerImageBuf ≠ 0 then { self with m_milBayerImageBuf := 0 } else self
  if self.m_milWBCoefficients ≠ 0 then { self with m_milWBCoefficients := 0 } else self

/-- The method `PylonCam::closeStreamGrabber` (lines 375-381). -/
def closeStreamGrabber (self : PylonCam) : PylonCam :=
  if self.m_hGrabber ≠ 0 then { self with m_hGrabber := 0 } else self

/-- The device part of `close` (lines 89-93). -/
def closeDevice (self : PylonCam) : PylonCam :=
  if self.m_hDev ≠ 0 then { self with m_hDev := 0 } else self

/-- The method `PylonCam::close` (lines 85-100). -/
def close (NUM_BUFFERS : Nat) (self : PylonCam) : PylonCam :=
  let self := closeStreamGrabber self
  let self := closeDevice self
  let self := freeBuffers NUM_BUFFERS self
  let self := freeBayerBuffers self
  { self with m_imgWidth := 0, m_imgHeight := 0 }

/-- The method `PylonCam::open` (lines 41-83). A `goto open_done` with `success` still
false runs `close()` and returns false. -/
def «open» (NUM_BUFFERS : Nat) (env : OpenEnv) (self : PylonCam) : Bool × PylonCam :=
  if isOpen self then (true, self)
  else
    let r := openDevice env 0 self
    if !r.1 then (false, r.2)
    else if !setPixelFormat env true then (false, close NUM_BUFFERS r.2)
    else if !setTriggerMode env then (false, close NUM_BUFFERS r.2)
    else if !setAcquisitionMode env then (false, close NUM_BUFFERS r.2)
    else if !setPacketSize env then (false, close NUM_BUFFERS r.2)
    else
      let r := getPayloadSize env r.2
      if !r.1 then (false, close NUM_BUFFERS r.2)
      else
        let r := getImageDimensions env r.2
        if !r.1 then (false, close NUM_BUFFERS r.2)
        else
          let r := allocateBayerBuffers env r.2
          if !r.1 then (false, r.2)
          else
            let r := allocateBuffers NUM_BUFFERS env r.2
            if !r.1 then (false, close NUM_BUFFERS r.2)
            else (true, r.2)

/-- The object holds nothing: no device, no transfer buffer, no demosaic buffer, no
image geometry. -/
def fullyClosed (NUM_BUFFERS : Nat) (self : PylonCam) : Prop :=
  self.m_hDev = 0 ∧ isOpen self = false ∧ (∀ i, i < NUM_BUFFERS → self.m_buff i = false)
    ∧ self.m_milBayerImageBuf = 0 ∧ self.m_milWBCoefficients = 0
    ∧ self.m_imgWidth = 0 ∧ self.m_imgHeight = 0

/-! ## Definitions used to state the theorems -/

/-- What a method of the start sequence leaves untouched or only adds to. -/
def onlyAdds (self : PylonCam) (t : Session) (r : CallResult) : Prop :=
  r.cam.m_copyBuffIndex = self.m_copyBuffIndex ∧ r.cam.m_stopThread = self.m_stopThread
    ∧ r.cam.m_hDev = self.m_hDev
    ∧ r.session.threadStarted = t.threadStarted ∧ r.session.acquiring = t.acquiring
    ∧ (t.grabberOpen = true → r.session.grabberOpen = true)
    ∧ (∃ more, r.session.registered = t.registered ++ more)
    ∧ (∃ more, r.session.queued = t.queued ++ more)

/-- The turn retrieves a completed transfer: the wait is signalled and the result is
ready, both without error (the turn reaches line 201). -/
def retrieved (o : Iteration) : Bool :=
  !isError o.waitResult && o.waitIsReady && !isError o.retrieveResult && o.retrieveIsReady

/-- The slots of the completed transfers that a list of turns retrieves, in order. -/
def completedSlots (turns : List Iteration) : List Int :=
  (turns.filter retrieved).map (fun o => o.Context)

/-- A turn of a loop that keeps running while no consumer pulls and the lock is
uncontended: no stop request, no pull by the other thread, no error from the SDK;
either the turn is a poll retry (the wait times out, line 192, or no result is ready,
line 199), or it retrieves a completion of an in-range slot and `tryLock` succeeds. -/
def quietTurn (NUM_BUFFERS : Nat) (o : Iteration) : Bool :=
  !o.stopRequested && !o.framePulled && !isError o.waitResult
    && (!o.waitIsReady
      || (!isError o.retrieveResult
        && (!o.retrieveIsReady
          || (decide (0 ≤ o.Context) && decide (o.Context < (NUM_BUFFERS : Int))
            && o.tryLock))))

/-- A turn in which the wait times out (line 191-192). -/
def waitTimeout : Iteration where
  stopRequested := false
  framePulled := false
  waitResult := GENAPI_E_OK
  waitIsReady := false
  retrieveResult := GENAPI_E_OK
  retrieveIsReady := false
  Context := 0
  tryLock := true

/-- A turn in which the wait is signalled but no result is ready (line 198-199). -/
def resultNotReady : Iteration where
  stopRequested := false
  framePulled := false
  waitResult := GENAPI_E_OK
  waitIsReady := true
  retrieveResult := GENAPI_E_OK
  retrieveIsReady := false
  Context := 0
  tryLock := true

/-- The calls of lines 353-362 succeed: the number of stream grabber channels is read,
it is at least 1, and the stream grabber handle is obtained. -/
def StartEnv.grabberObtained (env : StartEnv) : Bool :=
  !isError env.getNumStreamGrabberChannels && decide (1 ≤ env.num_streams)
    && !isError env.getStreamGrabber

/-- Every call of `openStreamGrabber` succeeds (lines 353-370). -/
def StartEnv.streamOpened (env : StartEnv) : Bool :=
  env.grabberObtained && !isError env.streamGrabberOpen && !isError env.getWaitObject

/-- Every call of `openStreamGrabber` and the three calls of lines 387-397 (buffer
count limit, buffer size limit, prepare-grab) succeed. -/
def StartEnv.grabPrepared (env : StartEnv) : Bool :=
  env.streamOpened && !isError env.setMaxNumBuffer && !isError env.setMaxBufferSize
    && !isError env.prepareGrab

/-- An environment in which every call of `open` succeeds: one camera, a 640 by 480
image, a payload of 307200 bytes. -/
def OpenEnv.sample : OpenEnv where
  enumerateDevices := GENAPI_E_OK
  num_devices := 1
  createDeviceByIndex := GENAPI_E_OK
  hDev := 1
  deviceOpen := GENAPI_E_OK
  bayerBG8Available := true
  pixelFormatBayerBG8 := GENAPI_E_OK
  acquisitionStartAvailable := true
  selectAcquisitionStart := GENAPI_E_OK
  acquisitionStartOff := GENAPI_E_OK
  frameStartAvailable := true
  selectFrameStart := GENAPI_E_OK
  frameStartOff := GENAPI_E_OK
  acquisitionModeContinuous := GENAPI_E_OK
  packetSizeWritable := true
  setPacketSize := GENAPI_E_OK
  getPayloadSize := GENAPI_E_OK
  payloadSize := 307200
  widthReadable := true
  heightReadable := true
  getWidth := GENAPI_E_OK
  width := 640
  getHeight := GENAPI_E_OK
  height := 480
  mbufAllocColor := 11
  mbufAlloc1d := 12
  newBuffer := fun _ => true

/-- The environment `OpenEnv.sample`, except that MIL fails to allocate the demosaic
image buffer (`MbufAllocColor` returns 0). -/
def OpenEnv.bayerAllocFails : OpenEnv :=
  { OpenEnv.sample with mbufAllocColor := 0 }

/-- An environment in which every call of `startCapture` succeeds except the
`AcquisitionStart` command. -/
def StartEnv.acquisitionStartFails : StartEnv where
  getNumStreamGrabberChannels := GENAPI_E_OK
  num_streams := 1
  getStreamGrabber := GENAPI_E_OK
  hGrabber := 21
  streamGrabberOpen := GENAPI_E_OK
  getWaitObject := GENAPI_E_OK
  hWait := 22
  setMaxNumBuffer := GENAPI_E_OK
  setMaxBufferSize := GENAPI_E_OK
  prepareGrab := GENAPI_E_OK
  registerBuffer := fun _ => GENAPI_E_OK
  hBuff := fun i => 100 + i
  queueBuffer := fun _ => GENAPI_E_OK
  acquisitionStart := -1

/-! ## Auxiliary facts about the acquisition loop -/

theorem isError_ok : isError GENAPI_E_OK = false := by
  decide

/-- A completion of an in-range slot, met by a loop that has not been told to stop and
whose mailbox nobody pulled: the mailbox takes the slot when it is empty and the lock
is free, and the slot is re-queued otherwise. -/
theorem runIteration_completion (NUM_BUFFERS : Nat) (self : PylonCam) (j : Int)
    (lockFree : Bool) (hs : self.m_stopThread = false) (h0 : 0 ≤ j)
    (h1 : j < (NUM_BUFFERS : Int)) :
    runIteration NUM_BUFFERS self (completion j false lockFree)
      = if lockFree then
          if self.m_copyBuffIndex < 0 then
            { cam := { self with m_copyBuffIndex := j }
              trace := [Event.waitObjectWait, Event.retrieveResult, Event.tryLock true,
                Event.unlock]
              exit := false }
          else
            { cam := self
              trace := [Event.waitObjectWait, Event.retrieveResult, Event.tryLock true,
                Event.queueBuffer j, Event.unlock]
              exit := false }
        else
          { cam := self
            trace := [Event.waitObjectWait, Event.retrieveResult, Event.tryLock false,
              Event.queueBuffer j]
            exit := false } := by
  have h0n : ¬ (j < 0) := by omega
  have h1n : ¬ ((NUM_BUFFERS : Int) ≤ j) := by omega
  simp [runIteration, interfere, completion, isError_ok, hs, h0n, h1n]

theorem queuedSlots_append (t u : List Event) :
    queuedSlots (t ++ u) = queuedSlots t ++ queuedSlots u := by
  induction t with
  | nil => rfl
  | cons e es ih => cases e <;> simp [queuedSlots, ih]

/-- Running the loop over `pre ++ more` when it does not leave within `pre`: the rest
of the turns is executed from the state reached after `pre`. -/
theorem run_append (NUM_BUFFERS : Nat) (pre more : List Iteration) (self : PylonCam)
    (h : (run NUM_BUFFERS self pre).exited = false) :
    run NUM_BUFFERS self (pre ++ more)
      = { cam := (run NUM_BUFFERS (run NUM_BUFFERS self pre).cam more).cam
          trace := (run NUM_BUFFERS self pre).trace
            ++ (run NUM_BUFFERS (run NUM_BUFFERS self pre).cam more).trace
          exited := (run NUM_BUFFERS (run NUM_BUFFERS self pre).cam more).exited
          pending := (run NUM_BUFFERS (run NUM_BUFFERS self pre).cam more).pending } := by
  induction pre generalizing self with
  | nil => simp [run]
  | cons o rest ih =>
    by_cases hx : (runIteration NUM_BUFFERS self o).exit = true
    · simp [run, hx] at h
    · have hrest : (run NUM_BUFFERS (runIteration NUM_BUFFERS self o).cam rest).exited
          = false := by
        simpa [run, hx] using h
      simp [run, hx, ih _ hrest, List.append_assoc]

/-- One quiet turn of a running loop: the loop goes on and the object changes only in
the mailbox; a poll retry changes nothing and queues nothing; a completion is parked
when the mailbox is empty and re-queued when it is occupied. -/
theorem runIteration_quiet (NUM_BUFFERS : Nat) (self : PylonCam) (o : Iteration)
    (hs : self.m_stopThread = false) (hq : quietTurn NUM_BUFFERS o = true) :
    (runIteration NUM_BUFFERS self o).exit = false
      ∧ (runIteration NUM_BUFFERS self o).cam.m_stopThread = false
      ∧ (retrieved o = false →
          (runIteration NUM_BUFFERS self o).cam = self
            ∧ queuedSlots (runIteration NUM_BUFFERS self o).trace = [])
      ∧ (retrieved o = true → self.m_copyBuffIndex < 0 →
          (runIteration NUM_BUFFERS self o).cam.m_copyBuffIndex = o.Context
            ∧ 0 ≤ o.Context
            ∧ queuedSlots (runIteration NUM_BUFFERS self o).trace = [])
      ∧ (retrieved o = true → 0 ≤ self.m_copyBuffIndex →
          (runIteration NUM_BUFFERS self o).cam = self
            ∧ queuedSlots (runIteration NUM_BUFFERS self o).trace = [o.Context]) := by
  simp only [quietTurn, Bool.and_eq_true, Bool.or_eq_true, Bool.not_eq_true',
    decide_eq_true_eq] at hq
  obtain ⟨⟨⟨h1, h2⟩, h3⟩, h4⟩ := hq
  have hi : interfere o self = self := by simp [interfere, h1, h2]
  unfold runIteration
  simp only [hi, hs, h3]
  rcases h4 with h4 | ⟨h5, h6⟩
  · simp [retrieved, h4, queuedSlots, hs]
  · rcases h6 with h6 | ⟨⟨h7, h8⟩, h9⟩
    · by_cases hw : o.waitIsReady = true <;> simp [retrieved, hw, h5, h6, queuedSlots, hs]
    · have h7n : ¬ (o.Context < 0) := by omega
      have h8n : ¬ ((NUM_BUFFERS : Int) ≤ o.Context) := by omega
      by_cases hw : o.waitIsReady = true <;> by_cases hr : o.retrieveIsReady = true <;>
        by_cases hm : self.m_copyBuffIndex < 0 <;>
        simp [retrieved, hw, hr, h3, h5, h7n, h8n, h9, hm, hs, queuedSlots, h7]

/-- Quiet turns met with the mailbox occupied: the mailbox keeps what it holds and every
retrieved completion is re-queued. -/
theorem run_quiet_occupied (NUM_BUFFERS : Nat) (turns : List Iteration) :
    ∀ (self : PylonCam), self.m_stopThread = false → 0 ≤ self.m_copyBuffIndex →
      (∀ o ∈ turns, quietTurn NUM_BUFFERS o = true) →
      (run NUM_BUFFERS self turns).cam = self
        ∧ queuedSlots (run NUM_BUFFERS self turns).trace = completedSlots turns
        ∧ (run NUM_BUFFERS self turns).exited = false
        ∧ (run NUM_BUFFERS self turns).pending = [] := by
  induction turns with
  | nil =>
    intro self _ _ _
    simp [run, queuedSlots, completedSlots]
  | cons o rest ih =>
    intro self hs hm hq
    obtain ⟨e1, _, e3, _, e5⟩ :=
      runIteration_quiet NUM_BUFFERS self o hs (hq o (List.mem_cons_self o rest))
    have hrest : ∀ x ∈ rest, quietTurn NUM_BUFFERS x = true :=
      fun x hx => hq x (List.mem_cons_of_mem o hx)
    cases hr : retrieved o with
    | false =>
      obtain ⟨c1, c2⟩ := e3 hr
      obtain ⟨i1, i2, i3, i4⟩ := ih self hs hm hrest
      simp [run, e1, c1, c2, i1, i2, i3, i4, queuedSlots_append, completedSlots, hr]
    | true =>
      obtain ⟨c1, c2⟩ := e5 hr hm
      obtain ⟨i1, i2, i3, i4⟩ := ih self hs hm hrest
      simp [run, e1, c1, c2, i1, i2, i3, i4, queuedSlots_append, completedSlots, hr]

/-- Quiet turns met with the mailbox empty: the first retrieved completion is parked,
every later one is re-queued, and the loop keeps running. -/
theorem run_quiet_empty (NUM_BUFFERS : Nat) (turns : List Iteration) :
    ∀ (self : PylonCam), self.m_stopThread = false → self.m_copyBuffIndex < 0 →
      (∀ o ∈ turns, quietTurn NUM_BUFFERS o = true) →
      (run NUM_BUFFERS self turns).exited = false
        ∧ (run NUM_BUFFERS self turns).pending = []
        ∧ queuedSlots (run NUM_BUFFERS self turns).trace = (completedSlots turns).tail
        ∧ (completedSlots turns = [] →
            (run NUM_BUFFERS self turns).cam.m_copyBuffIndex = self.m_copyBuffIndex)
        ∧ (∀ first, (completedSlots turns).head? = some first →
            (run NUM_BUFFERS self turns).cam.m_copyBuffIndex = first ∧ 0 ≤ first) := by
  induction turns with
  | nil =>
    intro self _ _ _
    simp [run, queuedSlots, completedSlots]
  | cons o rest ih =>
    intro self hs hm hq
    obtain ⟨e1, e2, e3, e4, _⟩ :=
      runIteration_quiet NUM_BUFFERS self o hs (hq o (List.mem_cons_self o rest))
    have hrest : ∀ x ∈ rest, quietTurn NUM_BUFFERS x = true :=
      fun x hx => hq x (List.mem_cons_of_mem o hx)
    cases hr : retrieved o with
    | false =>
      obtain ⟨c1, c2⟩ := e3 hr
      obtain ⟨i1, i2, i3, i4, i5⟩ := ih self hs hm hrest
      have hcs : completedSlots (o :: rest) = completedSlots rest := by
        simp [completedSlots, hr]
      rw [hcs]
      simp only [run, e1, c1]
      simp [i1, i2, i3, c2, queuedSlots_append]
      exact ⟨i4, i5⟩
    | true =>
      obtain ⟨c1, c2, c3⟩ := e4 hr hm
      have hcs : completedSlots (o :: rest) = o.Context :: completedSlots rest := by
        simp [completedSlots, hr]
      obtain ⟨i1, i2, i3, i4⟩ := run_quiet_occupied NUM_BUFFERS rest
        (runIteration NUM_BUFFERS self o).cam e2 (by rw [c1]; exact c2) hrest
      rw [hcs]
      simp only [run, e1]
      simp [i1, i2, i3, i4, c1, c2, c3, queuedSlots_append]

theorem completedSlots_append (a b : List Iteration) :
    completedSlots (a ++ b) = completedSlots a ++ completedSlots b := by
  simp [completedSlots]

/-- The critical sections of one turn of the loop: the trace of a turn leaves the
mutex released, and a critical section holds nothing or the single re-queue of the
slot that just completed, which happens when the mailbox is occupied. -/
theorem runIteration_sections (NUM_BUFFERS : Nat) (self : PylonCam) (o : Iteration) :
    (∀ u, lockedSections none ((runIteration NUM_BUFFERS self o).trace ++ u)
        = lockedSections none (runIteration NUM_BUFFERS self o).trace
          ++ lockedSections none u)
      ∧ ∀ sec ∈ lockedSections none (runIteration NUM_BUFFERS self o).trace,
          sec = [] ∨ (sec = [Event.queueBuffer o.Context] ∧ 0 ≤ o.Context
            ∧ o.Context < (NUM_BUFFERS : Int) ∧ o.tryLock = true
            ∧ 0 ≤ (interfere o self).m_copyBuffIndex) := by
  unfold runIteration
  simp only []
  split_ifs <;> simp_all [lockedSections]

/-- With the mailbox holding a slot `i ≥ 1`, `getNextFrame` returns true, empties the
mailbox, and copies, demosaics and re-queues buffer `i`, in this order. -/
theorem getNextFrame_positive_slot (self : PylonCam) (buf_id : Nat)
    (h : 0 < self.m_copyBuffIndex) :
    (getNextFrame self buf_id).ret = true
      ∧ (getNextFrame self buf_id).cam.m_copyBuffIndex = -1
      ∧ (getNextFrame self buf_id).trace
          = [Event.lock, Event.unlock, Event.mbufPut self.m_copyBuffIndex,
            Event.mbufBayer buf_id, Event.queueBuffer self.m_copyBuffIndex] := by
  have hge : self.m_copyBuffIndex ≥ 0 := by omega
  simp [getNextFrame, takeIndex, hge, h]

/-! ## Auxiliary facts about `startCapture` -/

theorem registerLoop_facts (env : StartEnv) (n : Nat) :
    ∀ (i : Nat) (self : PylonCam) (t : Session),
      onlyAdds self t (registerLoop env n i self t)
        ∧ ((registerLoop env n i self t).ret = true →
            ∀ k, k < n → isError (env.registerBuffer (i + k)) = false) := by
  induction n with
  | zero =>
    intro i self t
    simp [registerLoop, onlyAdds]
  | succ n ih =>
    intro i self t
    by_cases he : isError (env.registerBuffer i) = true
    · simp [registerLoop, onlyAdds, he]
    · have hrec := ih (i + 1)
        { self with m_hBuff := Function.update self.m_hBuff i (env.hBuff i) }
        { t with registered := t.registered ++ [i] }
      simp only [registerLoop, he]
      obtain ⟨⟨h1, h2, h3, h4, h5, h6, ⟨m7, h7⟩, h8⟩, hok⟩ := hrec
      refine ⟨⟨h1, h2, h3, h4, h5, h6, ⟨[i] ++ m7, ?_⟩, h8⟩, ?_⟩
      · simpa [List.append_assoc] using h7
      · intro hret k hk
        cases k with
        | zero => simpa using he
        | succ k =>
          have := hok hret k (by omega)
          rwa [show i + (k + 1) = i + 1 + k by omega]

theorem queueLoop_facts (env : StartEnv) (n : Nat) :
    ∀ (i : Nat) (self : PylonCam) (t : Session),
      onlyAdds self t (queueLoop env n i self t)
        ∧ ((queueLoop env n i self t).ret = true →
            ∀ k, k < n → isError (env.queueBuffer (i + k)) = false) := by
  induction n with
  | zero =>
    intro i self t
    simp [queueLoop, onlyAdds]
  | succ n ih =>
    intro i self t
    by_cases he : isError (env.queueBuffer i) = true
    · simp [queueLoop, onlyAdds, he]
    · have hrec := ih (i + 1) self { t with queued := t.queued ++ [i] }
      simp only [queueLoop, he]
      obtain ⟨⟨h1, h2, h3, h4, h5, h6, h7, ⟨m8, h8⟩⟩, hok⟩ := hrec
      refine ⟨⟨h1, h2, h3, h4, h5, h6, h7, ⟨[i] ++ m8, ?_⟩⟩, ?_⟩
      · simpa [List.append_assoc] using h8
      · intro hret k hk
        cases k with
        | zero => simpa using he
        | succ k =>
          have := hok hret k (by omega)
          rwa [show i + (k + 1) = i + 1 + k by omega]

theorem onlyAdds_trans (self : PylonCam) (t : Session) (r1 r2 : CallResult)
    (h1 : onlyAdds self t r1) (h2 : onlyAdds r1.cam r1.session r2) : onlyAdds self t r2 := by
  obtain ⟨a1, a2, a3, a4, a5, a6, ⟨m7, a7⟩, ⟨m8, a8⟩⟩ := h1
  obtain ⟨b1, b2, b3, b4, b5, b6, ⟨n7, b7⟩, ⟨n8, b8⟩⟩ := h2
  refine ⟨b1.trans a1, b2.trans a2, b3.trans a3, b4.trans a4, b5.trans a5,
    fun h => b6 (a6 h), ⟨m7 ++ n7, ?_⟩, ⟨m8 ++ n8, ?_⟩⟩
  · rw [b7, a7, List.append_assoc]
  · rw [b8, a8, List.append_assoc]

theorem openStreamGrabber_facts (env : StartEnv) (self : PylonCam) (t : Session) :
    onlyAdds self t (openStreamGrabber env self t)
      ∧ ((openStreamGrabber env self t).ret = true →
          isError env.getNumStreamGrabberChannels = false ∧ 1 ≤ env.num_streams
            ∧ isError env.getStreamGrabber = false ∧ isError env.streamGrabberOpen = false
            ∧ isError env.getWaitObject = false) := by
  unfold openStreamGrabber
  simp only []
  split_ifs <;> simp_all [onlyAdds]
  omega

theorem prepareBuffers_facts (NUM_BUFFERS : Nat) (env : StartEnv) (self : PylonCam)
    (t : Session) :
    onlyAdds self t (prepareBuffers NUM_BUFFERS env self t)
      ∧ ((prepareBuffers NUM_BUFFERS env self t).ret = true →
          isError env.setMaxNumBuffer = false ∧ isError env.setMaxBufferSize = false
            ∧ isError env.prepareGrab = false
            ∧ (∀ k, k < NUM_BUFFERS → isError (env.registerBuffer k) = false)
            ∧ (∀ k, k < NUM_BUFFERS → isError (env.queueBuffer k) = false)) := by
  have hreg := registerLoop_facts env NUM_BUFFERS 0 self t
  have hq := queueLoop_facts env NUM_BUFFERS 0
    (registerLoop env NUM_BUFFERS 0 self t).cam (registerLoop env NUM_BUFFERS 0 self t).session
  unfold prepareBuffers
  simp only []
  split_ifs with h1 h2 h3 h4
  · simp [onlyAdds]
  · simp [onlyAdds]
  · simp [onlyAdds]
  · exact ⟨hreg.1, by simp⟩
  · refine ⟨onlyAdds_trans self t _ _ hreg.1 hq.1, fun hret => ?_⟩
    have hregret : (registerLoop env NUM_BUFFERS 0 self t).ret = true := by simpa using h4
    refine ⟨by simpa using h1, by simpa using h2, by simpa using h3, ?_, ?_⟩
    · intro k hk
      simpa using hreg.2 hregret k hk
    · intro k hk
      simpa using hq.2 hret k hk

theorem startCapture_facts (NUM_BUFFERS : Nat) (env : StartEnv) (self : PylonCam)
    (t : Session) :
    ((startCapture NUM_BUFFERS env self t).ret = false →
        onlyAdds self t (startCapture NUM_BUFFERS env self t))
      ∧ ((startCapture NUM_BUFFERS env self t).ret = true → env.allOk NUM_BUFFERS = true) := by
  have ho := openStreamGrabber_facts env self t
  have hp := prepareBuffers_facts NUM_BUFFERS env (openStreamGrabber env self t).cam
    (openStreamGrabber env self t).session
  unfold startCapture
  simp only []
  split_ifs with h1 h2 h3
  · exact ⟨fun _ => ho.1, by simp⟩
  · exact ⟨fun _ => onlyAdds_trans self t _ _ ho.1 hp.1, by simp⟩
  · exact ⟨fun _ => onlyAdds_trans self t _ _ ho.1 hp.1, by simp⟩
  · refine ⟨by simp, fun _ => ?_⟩
    have hoo := ho.2 (by simpa using h1)
    have hpp := hp.2 (by simpa using h2)
    have h3f : isError env.acquisitionStart = false := by simpa using h3
    simp only [StartEnv.allOk, hoo.1, hoo.2.1, hoo.2.2.1, hoo.2.2.2.1, hoo.2.2.2.2, hpp.1,
      hpp.2.1, hpp.2.2.1, h3f, Bool.not_false, Bool.true_and, Bool.and_true, decide_True,
      Bool.and_eq_true, List.all_eq_true, List.mem_range]
    exact ⟨fun k hk => by simp [hpp.2.2.2.1 k hk], fun k hk => by simp [hpp.2.2.2.2 k hk]⟩

theorem registerLoop_exact (env : StartEnv) (n : Nat) :
    ∀ (j i : Nat) (self : PylonCam) (t : Session), j ≤ n →
      (∀ k, k < j → isError (env.registerBuffer (i + k)) = false) →
      (j < n → isError (env.registerBuffer (i + j)) = true) →
      registerLoop env n i self t
        = { ret := decide (j = n)
            cam := { self with
              m_hBuff := fun k =>
                if i ≤ k ∧ k < i + j then env.hBuff k else self.m_hBuff k }
            session := { t with registered := t.registered ++ List.range' i j } } := by
  induction n with
  | zero =>
    intro j i self t hj _ _
    have hj0 : j = 0 := by omega
    subst hj0
    have hf : (fun k => if i ≤ k ∧ k < i then env.hBuff k else self.m_hBuff k)
        = self.m_hBuff := by
      funext k
      have : ¬ (i ≤ k ∧ k < i) := by omega
      simp [this]
    simp [registerLoop, hf]
  | succ n ih =>
    intro j i self t hj hok herr
    cases j with
    | zero =>
      have he : isError (env.registerBuffer i) = true := by simpa using herr (by omega)
      have hf : (fun k => if i ≤ k ∧ k < i then env.hBuff k else self.m_hBuff k)
          = self.m_hBuff := by
        funext k
        have : ¬ (i ≤ k ∧ k < i) := by omega
        simp [this]
      simp [registerLoop, he, hf]
    | succ j =>
      have he : isError (env.registerBuffer i) = false := by simpa using hok 0 (by omega)
      have hrec := ih j (i + 1)
        { self with m_hBuff := Function.update self.m_hBuff i (env.hBuff i) }
        { t with registered := t.registered ++ [i] } (by omega)
        (fun k hk => by
          have := hok (k + 1) (by omega)
          rwa [show i + (k + 1) = i + 1 + k by omega] at this)
        (fun hlt => by
          have := herr (by omega)
          rwa [show i + (j + 1) = i + 1 + j by omega] at this)
      have hf : (fun k => if i + 1 ≤ k ∧ k < i + 1 + j then env.hBuff k
            else Function.update self.m_hBuff i (env.hBuff i) k)
          = (fun k => if i ≤ k ∧ k < i + (j + 1) then env.hBuff k else self.m_hBuff k) := by
        funext k
        by_cases hk : k = i
        · subst hk
          have h1 : ¬ (k + 1 ≤ k ∧ k < k + 1 + j) := by omega
          have h2 : k ≤ k ∧ k < k + (j + 1) := by omega
          simp [h1, h2]
        · by_cases hin : i + 1 ≤ k ∧ k < i + 1 + j
          · have h2 : i ≤ k ∧ k < i + (j + 1) := by omega
            simp [hin, h2]
          · have h2 : ¬ (i ≤ k ∧ k < i + (j + 1)) := by omega
            simp [hin, h2, Function.update, hk]
      simp only [registerLoop, he]
      rw [if_neg (by simp), hrec]
      simp [hf, List.range'_succ]

theorem queueLoop_exact (env : StartEnv) (n : Nat) :
    ∀ (j i : Nat) (self : PylonCam) (t : Session), j ≤ n →
      (∀ k, k < j → isError (env.queueBuffer (i + k)) = false) →
      (j < n → isError (env.queueBuffer (i + j)) = true) →
      queueLoop env n i self t
        = { ret := decide (j = n)
            cam := self
            session := { t with queued := t.queued ++ List.range' i j } } := by
  induction n with
  | zero =>
    intro j i self t hj _ _
    have hj0 : j = 0 := by omega
    subst hj0
    simp [queueLoop]
  | succ n ih =>
    intro j i self t hj hok herr
    cases j with
    | zero =>
      have he : isError (env.queueBuffer i) = true := by simpa using herr (by omega)
      simp [queueLoop, he]
    | succ j =>
      have he : isError (env.queueBuffer i) = false := by simpa using hok 0 (by omega)
      have hrec := ih j (i + 1) self { t with queued := t.queued ++ [i] } (by omega)
        (fun k hk => by
          have := hok (k + 1) (by omega)
          rwa [show i + (k + 1) = i + 1 + k by omega] at this)
        (fun hlt => by
          have := herr (by omega)
          rwa [show i + (j + 1) = i + 1 + j by omega] at this)
      simp only [queueLoop, he]
      rw [if_neg (by simp), hrec]
      simp [List.range'_succ]

theorem first_error (f : Nat → Bool) (n : Nat) (h : (List.range n).all f = false) :
    ∃ i, i < n ∧ (∀ k, k < i → f k = true) ∧ f i = false := by
  have hex : ∃ i, i < n ∧ f i = false := by
    by_contra hno
    have hall : (List.range n).all f = true := by
      rw [List.all_eq_true]
      intro x hx
      by_contra hfx
      exact hno ⟨x, List.mem_range.mp hx, by simpa using hfx⟩
    rw [hall] at h
    exact absurd h (by decide)
  refine ⟨Nat.find hex, (Nat.find_spec hex).1, fun k hk => ?_, (Nat.find_spec hex).2⟩
  by_contra hfk
  exact Nat.find_min hex hk ⟨lt_trans hk (Nat.find_spec hex).1, by simpa using hfk⟩

theorem openStreamGrabber_exact (env : StartEnv) (self : PylonCam) (t : Session) :
    (env.grabberObtained = false →
        openStreamGrabber env self t = { ret := false, cam := self, session := t })
      ∧ (env.grabberObtained = true → isError env.streamGrabberOpen = true →
        openStreamGrabber env self t
          = { ret := false, cam := { self with m_hGrabber := env.hGrabber }, session := t })
      ∧ (env.grabberObtained = true → isError env.streamGrabberOpen = false →
        isError env.getWaitObject = true →
        openStreamGrabber env self t
          = { ret := false, cam := { self with m_hGrabber := env.hGrabber }
              session := { t with grabberOpen := true } })
      ∧ (env.streamOpened = true →
        openStreamGrabber env self t
          = { ret := true
              cam := { self with m_hGrabber := env.hGrabber, m_hWait := env.hWait }
              session := { t with grabberOpen := true } }) := by
  refine ⟨fun h => ?_, fun h h1 => ?_, fun h h1 h2 => ?_, fun h => ?_⟩
  · simp only [StartEnv.grabberObtained, Bool.and_eq_false_iff, Bool.not_eq_false',
      decide_eq_false_iff_not] at h
    unfold openStreamGrabber
    rcases h with (h | h) | h
    · simp [h]
    · have hlt : env.num_streams < 1 := by omega
      simp [hlt]
    · simp [h]
  · simp only [StartEnv.grabberObtained, Bool.and_eq_true, Bool.not_eq_true',
      decide_eq_true_eq] at h
    obtain ⟨⟨a, b⟩, c⟩ := h
    have hlt : ¬ env.num_streams < 1 := by omega
    simp [openStreamGrabber, a, hlt, c, h1]
  · simp only [StartEnv.grabberObtained, Bool.and_eq_true, Bool.not_eq_true',
      decide_eq_true_eq] at h
    obtain ⟨⟨a, b⟩, c⟩ := h
    have hlt : ¬ env.num_streams < 1 := by omega
    simp [openStreamGrabber, a, hlt, c, h1, h2]
  · simp only [StartEnv.streamOpened, StartEnv.grabberObtained, Bool.and_eq_true,
      Bool.not_eq_true', decide_eq_true_eq] at h
    obtain ⟨⟨⟨⟨a, b⟩, c⟩, d⟩, e⟩ := h
    have hlt : ¬ env.num_streams < 1 := by omega
    simp [openStreamGrabber, a, hlt, c, d, e]

theorem prepareBuffers_exact (NUM_BUFFERS : Nat) (env : StartEnv) (self : PylonCam)
    (t : Session) :
    ((isError env.setMaxNumBuffer || isError env.setMaxBufferSize
        || isError env.prepareGrab) = true →
        prepareBuffers NUM_BUFFERS env self t = { ret := false, cam := self, session := t })
      ∧ (∀ i, i < NUM_BUFFERS →
        (isError env.setMaxNumBuffer || isError env.setMaxBufferSize
          || isError env.prepareGrab) = false →
        (∀ k, k < i → isError (env.registerBuffer k) = false) →
        isError (env.registerBuffer i) = true →
        prepareBuffers NUM_BUFFERS env self t
          = { ret := false
              cam := { self with
                m_hBuff := fun k => if k < i then env.hBuff k else self.m_hBuff k }
              session := { t with registered := t.registered ++ List.range i } })
      ∧ (∀ i, i ≤ NUM_BUFFERS →
        (isError env.setMaxNumBuffer || isError env.setMaxBufferSize
          || isError env.prepareGrab) = false →
        (∀ k, k < NUM_BUFFERS → isError (env.registerBuffer k) = false) →
        (∀ k, k < i → isError (env.queueBuffer k) = false) →
        (i < NUM_BUFFERS → isError (env.queueBuffer i) = true) →
        prepareBuffers NUM_BUFFERS env self t
          = { ret := decide (i = NUM_BUFFERS)
              cam := { self with
                m_hBuff := fun k => if k < NUM_BUFFERS then env.hBuff k else self.m_hBuff k }
              session := { t with
                registered := t.registered ++ List.range NUM_BUFFERS
                queued := t.queued ++ List.range i } }) := by
  refine ⟨fun h => ?_, fun i hi h hok herr => ?_, fun i hi h hreg hok herr => ?_⟩
  · simp only [Bool.or_eq_true] at h
    unfold prepareBuffers
    rcases h with (h | h) | h
    · simp [h]
    · by_cases h1 : isError env.setMaxNumBuffer = true <;> simp [h, h1]
    · by_cases h1 : isError env.setMaxNumBuffer = true <;>
        by_cases h2 : isError env.setMaxBufferSize = true <;> simp [h, h1, h2]
  · simp only [Bool.or_eq_false_iff] at h
    obtain ⟨⟨a, b⟩, c⟩ := h
    have hreg := registerLoop_exact env NUM_BUFFERS i 0 self t (by omega)
      (fun k hk => by simpa using hok k hk) (fun _ => by simpa using herr)
    have hne : i ≠ NUM_BUFFERS := by omega
    simp [prepareBuffers, a, b, c, hreg, hne, List.range_eq_range']
  · simp only [Bool.or_eq_false_iff] at h
    obtain ⟨⟨a, b⟩, c⟩ := h
    have hr := registerLoop_exact env NUM_BUFFERS NUM_BUFFERS 0 self t (le_refl _)
      (fun k hk => by simpa using hreg k hk) (fun hlt => absurd hlt (lt_irrefl _))
    have hq := queueLoop_exact env NUM_BUFFERS i 0
      { self with
        m_hBuff := fun k =>
          if 0 ≤ k ∧ k < 0 + NUM_BUFFERS then env.hBuff k else self.m_hBuff k }
      { t with registered := t.registered ++ List.range' 0 NUM_BUFFERS } hi
      (fun k hk => by simpa using hok k hk) (fun hlt => by simpa using herr hlt)
    simp only [prepareBuffers, a, b, c, hr]
    simpa [List.range_eq_range'] using hq

theorem allOk_eq (NUM_BUFFERS : Nat) (env : StartEnv) :
    env.allOk NUM_BUFFERS
      = (env.grabPrepared
        && (List.range NUM_BUFFERS).all (fun i => !isError (env.registerBuffer i))
        && (List.range NUM_BUFFERS).all (fun i => !isError (env.queueBuffer i))
        && !isError env.acquisitionStart) :=
  rfl

theorem all_ok_range (f : Nat → GENAPIC_RESULT) (n : Nat)
    (h : (List.range n).all (fun i => !isError (f i)) = true) :
    ∀ k, k < n → isError (f k) = false := by
  intro k hk
  rw [List.all_eq_true] at h
  simpa using h k (List.mem_range.mpr hk)

/-- Where a failing start sequence fails first. -/
theorem startCapture_failure_cases (NUM_BUFFERS : Nat) (env : StartEnv)
    (h : env.allOk NUM_BUFFERS = false) :
    env.grabberObtained = false
      ∨ (env.grabberObtained = true ∧ env.streamOpened = false)
      ∨ (env.streamOpened = true ∧ env.grabPrepared = false)
      ∨ (env.grabPrepared = true ∧ ∃ i, i < NUM_BUFFERS
          ∧ (∀ k, k < i → isError (env.registerBuffer k) = false)
          ∧ isError (env.registerBuffer i) = true)
      ∨ (env.grabPrepared = true
          ∧ (∀ k, k < NUM_BUFFERS → isError (env.registerBuffer k) = false)
          ∧ ∃ i, i < NUM_BUFFERS ∧ (∀ k, k < i → isError (env.queueBuffer k) = false)
            ∧ isError (env.queueBuffer i) = true)
      ∨ (env.grabPrepared = true
          ∧ (∀ k, k < NUM_BUFFERS → isError (env.registerBuffer k) = false)
          ∧ (∀ k, k < NUM_BUFFERS → isError (env.queueBuffer k) = false)
          ∧ isError env.acquisitionStart = true) := by
  rw [allOk_eq] at h
  cases h1 : env.grabberObtained with
  | false => exact Or.inl rfl
  | true =>
    cases h2 : env.streamOpened with
    | false => exact Or.inr (Or.inl ⟨rfl, rfl⟩)
    | true =>
      cases h3 : env.grabPrepared with
      | false => exact Or.inr (Or.inr (Or.inl ⟨rfl, rfl⟩))
      | true =>
        cases h4 : (List.range NUM_BUFFERS).all (fun i => !isError (env.registerBuffer i)) with
        | false =>
          obtain ⟨i, hi, hlt, hat⟩ := first_error _ _ h4
          exact Or.inr (Or.inr (Or.inr (Or.inl ⟨rfl, i, hi,
            fun k hk => by simpa using hlt k hk, by simpa using hat⟩)))
        | true =>
          have hreg := all_ok_range env.registerBuffer NUM_BUFFERS h4
          cases h5 : (List.range NUM_BUFFERS).all (fun i => !isError (env.queueBuffer i)) with
          | false =>
            obtain ⟨i, hi, hlt, hat⟩ := first_error _ _ h5
            exact Or.inr (Or.inr (Or.inr (Or.inr (Or.inl ⟨rfl, hreg, i, hi,
              fun k hk => by simpa using hlt k hk, by simpa using hat⟩))))
          | true =>
            have hq := all_ok_range env.queueBuffer NUM_BUFFERS h5
            have hacq : isError env.acquisitionStart = true := by
              simpa [h3, h4, h5] using h
            exact Or.inr (Or.inr (Or.inr (Or.inr (Or.inr ⟨rfl, hreg, hq, hacq⟩))))

theorem grabPrepared_parts (env : StartEnv) (h : env.grabPrepared = true) :
    env.streamOpened = true
      ∧ (isError env.setMaxNumBuffer || isError env.setMaxBufferSize
          || isError env.prepareGrab) = false := by
  simp only [StartEnv.grabPrepared, Bool.and_eq_true, Bool.not_eq_true'] at h
  obtain ⟨⟨⟨a, b⟩, c⟩, d⟩ := h
  simp [a, b, c, d]

theorem startCapture_prepared (NUM_BUFFERS : Nat) (env : StartEnv) (self : PylonCam)
    (t : Session) (h : env.streamOpened = true) :
    startCapture NUM_BUFFERS env self t
      = if !(prepareBuffers NUM_BUFFERS env
            { self with m_hGrabber := env.hGrabber, m_hWait := env.hWait }
            { t with grabberOpen := true }).ret then
          { ret := false
            cam := (prepareBuffers NUM_BUFFERS env
              { self with m_hGrabber := env.hGrabber, m_hWait := env.hWait }
              { t with grabberOpen := true }).cam
            session := (prepareBuffers NUM_BUFFERS env
              { self with m_hGrabber := env.hGrabber, m_hWait := env.hWait }
              { t with grabberOpen := true }).session }
        else if isError env.acquisitionStart then
          { ret := false
            cam := (prepareBuffers NUM_BUFFERS env
              { self with m_hGrabber := env.hGrabber, m_hWait := env.hWait }
              { t with grabberOpen := true }).cam
            session := (prepareBuffers NUM_BUFFERS env
              { self with m_hGrabber := env.hGrabber, m_hWait := env.hWait }
              { t with grabberOpen := true }).session }
        else
          { ret := true
            cam := { (prepareBuffers NUM_BUFFERS env
              { self with m_hGrabber := env.hGrabber, m_hWait := env.hWait }
              { t with grabberOpen := true }).cam with
              m_copyBuffIndex := -1, m_stopThread := false }
            session := { (prepareBuffers NUM_BUFFERS env
              { self with m_hGrabber := env.hGrabber, m_hWait := env.hWait }
              { t with grabberOpen := true }).session with
              acquiring := true, threadStarted := true } } := by
  have ho := (openStreamGrabber_exact env self t).2.2.2 h
  unfold startCapture
  simp only [ho]
  rfl

/-- The state in which a failing `startCapture` leaves the object and the session, by
the step that fails first. -/
theorem startCapture_exact (NUM_BUFFERS : Nat) (env : StartEnv) (self : PylonCam)
    (t : Session) :
    (env.grabberObtained = false →
        startCapture NUM_BUFFERS env self t = { ret := false, cam := self, session := t })
      ∧ (env.grabberObtained = true → isError env.streamGrabberOpen = true →
        startCapture NUM_BUFFERS env self t
          = { ret := false, cam := { self with m_hGrabber := env.hGrabber }, session := t })
      ∧ (env.grabberObtained = true → isError env.streamGrabberOpen = false →
        isError env.getWaitObject = true →
        startCapture NUM_BUFFERS env self t
          = { ret := false, cam := { self with m_hGrabber := env.hGrabber }
              session := { t with grabberOpen := true } })
      ∧ (env.streamOpened = true → env.grabPrepared = false →
        startCapture NUM_BUFFERS env self t
          = { ret := false
              cam := { self with m_hGrabber := env.hGrabber, m_hWait := env.hWait }
              session := { t with grabberOpen := true } })
      ∧ (∀ i, i < NUM_BUFFERS → env.grabPrepared = true →
        (∀ k, k < i → isError (env.registerBuffer k) = false) →
        isError (env.registerBuffer i) = true →
        startCapture NUM_BUFFERS env self t
          = { ret := false
              cam := { self with
                m_hGrabber := env.hGrabber, m_hWait := env.hWait
                m_hBuff := fun k => if k < i then env.hBuff k else self.m_hBuff k }
              session := { t with
                grabberOpen := true, registered := t.registered ++ List.range i } })
      ∧ (∀ i, i < NUM_BUFFERS → env.grabPrepared = true →
        (∀ k, k < NUM_BUFFERS → isError (env.registerBuffer k) = false) →
        (∀ k, k < i → isError (env.queueBuffer k) = false) →
        isError (env.queueBuffer i) = true →
        startCapture NUM_BUFFERS env self t
          = { ret := false
              cam := { self with
                m_hGrabber := env.hGrabber, m_hWait := env.hWait
                m_hBuff := fun k => if k < NUM_BUFFERS then env.hBuff k else self.m_hBuff k }
              session := { t with
                grabberOpen := true
                registered := t.registered ++ List.range NUM_BUFFERS
                queued := t.queued ++ List.range i } })
      ∧ (env.grabPrepared = true →
        (∀ k, k < NUM_BUFFERS → isError (env.registerBuffer k) = false) →
        (∀ k, k < NUM_BUFFERS → isError (env.queueBuffer k) = false) →
        isError env.acquisitionStart = true →
        startCapture NUM_BUFFERS env self t
          = { ret := false
              cam := { self with
                m_hGrabber := env.hGrabber, m_hWait := env.hWait
                m_hBuff := fun k => if k < NUM_BUFFERS then env.hBuff k else self.m_hBuff k }
              session := { t with
                grabberOpen := true
                registered := t.registered ++ List.range NUM_BUFFERS
                queued := t.queued ++ List.range NUM_BUFFERS } }) := by
  have ho := openStreamGrabber_exact env self t
  have hp := prepareBuffers_exact NUM_BUFFERS env
    { self with m_hGrabber := env.hGrabber, m_hWait := env.hWait }
    { t with grabberOpen := true }
  refine ⟨fun h => ?_, fun h h1 => ?_, fun h h1 h2 => ?_, fun h h1 => ?_,
    fun i hi h hok herr => ?_, fun i hi h hreg hok herr => ?_, fun h hreg hq hacq => ?_⟩
  · simp [startCapture, ho.1 h]
  · simp [startCapture, ho.2.1 h h1]
  · simp [startCapture, ho.2.2.1 h h1 h2]
  · have hlim : (isError env.setMaxNumBuffer || isError env.setMaxBufferSize
        || isError env.prepareGrab) = true := by
      simp only [StartEnv.grabPrepared, h, Bool.true_and] at h1
      cases ha : isError env.setMaxNumBuffer <;> cases hb : isError env.setMaxBufferSize <;>
        cases hc : isError env.prepareGrab <;> simp [ha, hb, hc] at h1 ⊢
    rw [startCapture_prepared NUM_BUFFERS env self t h, hp.1 hlim]
    simp
  · obtain ⟨hs, hlim⟩ := grabPrepared_parts env h
    rw [startCapture_prepared NUM_BUFFERS env self t hs, hp.2.1 i hi hlim hok herr]
    simp
  · obtain ⟨hs, hlim⟩ := grabPrepared_parts env h
    rw [startCapture_prepared NUM_BUFFERS env self t hs,
      hp.2.2 i (by omega) hlim hreg hok (fun _ => herr)]
    have hne : i ≠ NUM_BUFFERS := by omega
    simp [hne]
  · obtain ⟨hs, hlim⟩ := grabPrepared_parts env h
    rw [startCapture_prepared NUM_BUFFERS env self t hs,
      hp.2.2 NUM_BUFFERS (le_refl _) hlim hreg hq (fun hlt => absurd hlt (lt_irrefl _))]
    simp [hacq]

/-! ## Auxiliary facts about `close` -/

theorem freeBuffer_facts (self : PylonCam) (i : Nat) :
    (freeBuffer self i).m_buff i = false
      ∧ (∀ k, self.m_buff k = false → (freeBuffer self i).m_buff k = false)
      ∧ (freeBuffer self i).m_hDev = self.m_hDev
      ∧ (freeBuffer self i).m_hGrabber = self.m_hGrabber
      ∧ (freeBuffer self i).m_milBayerImageBuf = self.m_milBayerImageBuf
      ∧ (freeBuffer self i).m_milWBCoefficients = self.m_milWBCoefficients
      ∧ (freeBuffer self i).m_imgWidth = self.m_imgWidth
      ∧ (freeBuffer self i).m_imgHeight = self.m_imgHeight := by
  unfold freeBuffer
  split_ifs with hb
  · refine ⟨by simp, fun k hk => ?_, rfl, rfl, rfl, rfl, rfl, rfl⟩
    by_cases hki : k = i
    · rw [hki]; simp
    · simpa [Function.update, hki] using hk
  · exact ⟨by simpa using hb, fun k hk => hk, rfl, rfl, rfl, rfl, rfl, rfl⟩

theorem freeBuffers_facts (n : Nat) (self : PylonCam) :
    (∀ i, i < n → (freeBuffers n self).m_buff i = false)
      ∧ (freeBuffers n self).m_hDev = self.m_hDev
      ∧ (freeBuffers n self).m_hGrabber = self.m_hGrabber
      ∧ (freeBuffers n self).m_milBayerImageBuf = self.m_milBayerImageBuf
      ∧ (freeBuffers n self).m_milWBCoefficients = self.m_milWBCoefficients
      ∧ (freeBuffers n self).m_imgWidth = self.m_imgWidth
      ∧ (freeBuffers n self).m_imgHeight = self.m_imgHeight := by
  induction n with
  | zero => simp [freeBuffers]
  | succ n ih =>
    obtain ⟨h1, h2, h3, h4, h5, h6, h7⟩ := ih
    have hstep : freeBuffers (n + 1) self = freeBuffer (freeBuffers n self) n := by
      simp [freeBuffers, List.range_succ, List.foldl_append]
    obtain ⟨b1, b2, b3, b4, b5, b6, b7, b8⟩ := freeBuffer_facts (freeBuffers n self) n
    rw [hstep]
    refine ⟨fun i hi => ?_, b3.trans h2, b4.trans h3, b5.trans h4, b6.trans h5,
      b7.trans h6, b8.trans h7⟩
    by_cases hin : i = n
    · rw [hin]; exact b1
    · exact b2 i (h1 i (by omega))

theorem closeDevice_hDev (self : PylonCam) : (closeDevice self).m_hDev = 0 := by
  unfold closeDevice
  split_ifs with h
  · rfl
  · simpa using h

theorem freeBayerBuffers_facts (self : PylonCam) :
    (freeBayerBuffers self).m_milBayerImageBuf = 0
      ∧ (freeBayerBuffers self).m_milWBCoefficients = 0
      ∧ (freeBayerBuffers self).m_hDev = self.m_hDev
      ∧ (freeBayerBuffers self).m_buff = self.m_buff := by
  unfold freeBayerBuffers
  simp only []
  split_ifs <;> simp_all

/-- The method `close` leaves the object fully closed, whatever state it finds. -/
theorem close_fullyClosed (n : Nat) (self : PylonCam) : fullyClosed n (close n self) := by
  obtain ⟨h1, h2, _, _, _, _, _⟩ := freeBuffers_facts n (closeDevice (closeStreamGrabber self))
  obtain ⟨b1, b2, b3, b4⟩ :=
    freeBayerBuffers_facts (freeBuffers n (closeDevice (closeStreamGrabber self)))
  rw [closeDevice_hDev] at h2
  have hdev : (close n self).m_hDev = 0 := by
    simp only [close]
    exact b3.trans h2
  refine ⟨hdev, by simp [isOpen, hdev], fun i hi => ?_, ?_, ?_, rfl, rfl⟩
  · simp only [close]
    rw [b4]
    exact h1 i hi
  · simp only [close]
    exact b1
  · simp only [close]
    exact b2


/-! ## Theorems -/

/-- C1 (evaluated where it fails): slot `0` is a slot the producer publishes (from an
empty mailbox, a pool of 8 and a completion of slot 0, `run` leaves the mailbox holding
0), yet the `getNextFrame` that follows takes the slot out of the mailbox, returns
false and issues neither the copy, nor the demosaic call, nor the re-queue: slot 0 is
left neither mailed nor queued. -/
theorem getNextFrame_slot_zero_lost (buf_id : Nat) :
    (run 8 PylonCam.init [completion 0 false true]).cam.m_copyBuffIndex = 0
      ∧ (getNextFrame (run 8 PylonCam.init [completion 0 false true]).cam buf_id).ret = false
      ∧ (getNextFrame (run 8 PylonCam.init [completion 0 false true]).cam buf_id).trace
          = [Event.lock, Event.unlock]
      ∧ queuedSlots
          (getNextFrame (run 8 PylonCam.init [completion 0 false true]).cam buf_id).trace = []
      ∧ (getNextFrame (run 8 PylonCam.init [completion 0 false true]).cam
          buf_id).cam.m_copyBuffIndex = -1 := by
  exact ⟨by decide, rfl, rfl, rfl, rfl⟩

/-- C2: when the mailbox is empty (`m_copyBuffIndex < 0`), `getNextFrame` returns
false, its only events are the lock and the unlock of the mutex (no copy, no demosaic
call, no queue call), and the object, the mailbox included, is left as it was. -/
theorem getNextFrame_empty_mailbox (self : PylonCam) (buf_id : Nat)
    (h : self.m_copyBuffIndex < 0) :
    (getNextFrame self buf_id).ret = false
      ∧ (getNextFrame self buf_id).trace = [Event.lock, Event.unlock]
      ∧ (∀ index, Event.mbufPut index ∉ (getNextFrame self buf_id).trace)
      ∧ (∀ dst, Event.mbufBayer dst ∉ (getNextFrame self buf_id).trace)
      ∧ (∀ index, Event.queueBuffer index ∉ (getNextFrame self buf_id).trace)
      ∧ (getNextFrame self buf_id).cam = self
      ∧ (getNextFrame self buf_id).cam.m_copyBuffIndex < 0 := by
  have hn : ¬ (self.m_copyBuffIndex ≥ 0) := by omega
  have hr : getNextFrame self buf_id
      = { ret := false, cam := self, trace := [Event.lock, Event.unlock] } := by
    simp [getNextFrame, takeIndex, hn]
  rw [hr]
  simp [h]

/-- C2, at the mailbox value `-1` of a freshly constructed object. -/
theorem getNextFrame_empty_mailbox_witness :
    PylonCam.init.m_copyBuffIndex < 0
      ∧ (getNextFrame PylonCam.init 7).ret = false
      ∧ (getNextFrame PylonCam.init 7).trace = [Event.lock, Event.unlock]
      ∧ (∀ index, Event.mbufPut index ∉ (getNextFrame PylonCam.init 7).trace)
      ∧ (∀ dst, Event.mbufBayer dst ∉ (getNextFrame PylonCam.init 7).trace)
      ∧ (∀ index, Event.queueBuffer index ∉ (getNextFrame PylonCam.init 7).trace)
      ∧ (getNextFrame PylonCam.init 7).cam = PylonCam.init
      ∧ (getNextFrame PylonCam.init 7).cam.m_copyBuffIndex < 0 :=
  ⟨by decide, getNextFrame_empty_mailbox PylonCam.init 7 (by decide)⟩

/-- C3: let a running loop start from an empty mailbox and execute turns in which no
consumer pulls, nothing fails and the lock is uncontended, each turn being a poll retry
or the completion of an in-range slot. After any number `k` of these turns, the loop is
still running, the buffers re-queued to the transport are exactly the completions
retrieved so far except the first, in order (one fewer than the completions retrieved),
and the mailbox is still empty when no completion was retrieved yet and otherwise holds
the first completed slot of the whole sequence. -/
theorem run_keeps_first_requeues_later (NUM_BUFFERS : Nat) (self : PylonCam)
    (turns : List Iteration) (k : Nat) (hs : self.m_stopThread = false)
    (he : self.m_copyBuffIndex < 0)
    (hq : ∀ o ∈ turns, quietTurn NUM_BUFFERS o = true) :
    (run NUM_BUFFERS self (turns.take k)).exited = false
      ∧ queuedSlots (run NUM_BUFFERS self (turns.take k)).trace
          = (completedSlots (turns.take k)).tail
      ∧ (queuedSlots (run NUM_BUFFERS self (turns.take k)).trace).length
          = (completedSlots (turns.take k)).length - 1
      ∧ (completedSlots (turns.take k) = [] →
          (run NUM_BUFFERS self (turns.take k)).cam.m_copyBuffIndex = self.m_copyBuffIndex)
      ∧ (completedSlots (turns.take k) ≠ [] →
          (completedSlots turns).head?
              = some (run NUM_BUFFERS self (turns.take k)).cam.m_copyBuffIndex
            ∧ 0 ≤ (run NUM_BUFFERS self (turns.take k)).cam.m_copyBuffIndex) := by
  obtain ⟨h1, _, h3, h4, h5⟩ := run_quiet_empty NUM_BUFFERS (turns.take k) self hs he
    (fun o ho => hq o (List.mem_of_mem_take ho))
  refine ⟨h1, h3, by rw [h3, List.length_tail], h4, fun hne => ?_⟩
  cases hc : completedSlots (turns.take k) with
  | nil => exact absurd hc hne
  | cons first more =>
    obtain ⟨m1, m2⟩ := h5 first (by rw [hc]; rfl)
    have hsplit : completedSlots turns
        = completedSlots (turns.take k) ++ completedSlots (turns.drop k) := by
      rw [← completedSlots_append, List.take_append_drop]
    rw [hsplit, hc, m1]
    exact ⟨rfl, m2⟩

/-- C3, with a pool of 8, on the completions of slots 2, 5, 2 with a wait timeout and a
result that is not ready in between, after all five turns. -/
theorem run_keeps_first_requeues_later_witness :
    PylonCam.init.m_stopThread = false
      ∧ PylonCam.init.m_copyBuffIndex < 0
      ∧ (∀ o ∈ [completion 2 false true, waitTimeout, completion 5 false true,
          resultNotReady, completion 2 false true], quietTurn 8 o = true)
      ∧ (run 8 PylonCam.init ([completion 2 false true, waitTimeout,
          completion 5 false true, resultNotReady, completion 2 false true].take 5)).exited
          = false
      ∧ queuedSlots (run 8 PylonCam.init ([completion 2 false true, waitTimeout,
          completion 5 false true, resultNotReady, completion 2 false true].take 5)).trace
          = (completedSlots ([completion 2 false true, waitTimeout,
            completion 5 false true, resultNotReady, completion 2 false true].take 5)).tail
      ∧ (queuedSlots (run 8 PylonCam.init ([completion 2 false true, waitTimeout,
          completion 5 false true, resultNotReady,
          completion 2 false true].take 5)).trace).length
          = (completedSlots ([completion 2 false true, waitTimeout,
            completion 5 false true, resultNotReady,
            completion 2 false true].take 5)).length - 1
      ∧ (completedSlots ([completion 2 false true, waitTimeout, completion 5 false true,
          resultNotReady, completion 2 false true].take 5) = [] →
          (run 8 PylonCam.init ([completion 2 false true, waitTimeout,
            completion 5 false true, resultNotReady,
            completion 2 false true].take 5)).cam.m_copyBuffIndex
            = PylonCam.init.m_copyBuffIndex)
      ∧ (completedSlots ([completion 2 false true, waitTimeout, completion 5 false true,
          resultNotReady, completion 2 false true].take 5) ≠ [] →
          (completedSlots [completion 2 false true, waitTimeout, completion 5 false true,
              resultNotReady, completion 2 false true]).head?
              = some (run 8 PylonCam.init ([completion 2 false true, waitTimeout,
                completion 5 false true, resultNotReady,
                completion 2 false true].take 5)).cam.m_copyBuffIndex
            ∧ 0 ≤ (run 8 PylonCam.init ([completion 2 false true, waitTimeout,
                completion 5 false true, resultNotReady,
                completion 2 false true].take 5)).cam.m_copyBuffIndex) :=
  ⟨rfl, by decide, by decide,
    run_keeps_first_requeues_later 8 PylonCam.init [completion 2 false true, waitTimeout,
      completion 5 false true, resultNotReady, completion 2 false true] 5 rfl (by decide)
      (by decide)⟩

/-- C4 (as stated, refuted): with a pool of 8, the mailbox holding slot 2 and slot 5
completing while the lock is free, it is not the case that the mailbox afterwards holds
5 and that slot 2 is re-queued: the mailbox still holds 2 and the re-queued slot is 5. -/
theorem runIteration_overwrite_counterexample :
    ¬ ((runIteration 8 { PylonCam.init with m_copyBuffIndex := 2 }
          (completion 5 false true)).cam.m_copyBuffIndex = 5
        ∧ (2 : Int) ∈ queuedSlots (runIteration 8 { PylonCam.init with m_copyBuffIndex := 2 }
          (completion 5 false true)).trace) := by
  decide

/-- C4 (amended): when the producer handles a completed in-range slot `j` while the
mailbox holds an unconsumed slot, the mailbox afterwards still holds that slot, the
arriving buffer `j` is the one buffer that is re-queued, and the loop goes on; this is
so whether or not the lock could be taken. -/
theorem runIteration_occupied_requeues_arrival (NUM_BUFFERS : Nat) (self : PylonCam)
    (j : Int) (lockFree : Bool) (hs : self.m_stopThread = false)
    (hi : 0 ≤ self.m_copyBuffIndex) (h0 : 0 ≤ j) (h1 : j < (NUM_BUFFERS : Int)) :
    (runIteration NUM_BUFFERS self (completion j false lockFree)).cam.m_copyBuffIndex
        = self.m_copyBuffIndex
      ∧ queuedSlots (runIteration NUM_BUFFERS self (completion j false lockFree)).trace = [j]
      ∧ (runIteration NUM_BUFFERS self (completion j false lockFree)).exit = false := by
  have hn : ¬ (self.m_copyBuffIndex < 0) := by omega
  rw [runIteration_completion NUM_BUFFERS self j lockFree hs h0 h1]
  cases lockFree <;> simp [hn, queuedSlots]

/-- C4 (amended), with a pool of 8, the mailbox holding 2 and slot 5 completing. -/
theorem runIteration_occupied_requeues_arrival_witness :
    ({ PylonCam.init with m_copyBuffIndex := 2 } : PylonCam).m_stopThread = false
      ∧ 0 ≤ ({ PylonCam.init with m_copyBuffIndex := 2 } : PylonCam).m_copyBuffIndex
      ∧ (0 : Int) ≤ 5 ∧ (5 : Int) < ((8 : Nat) : Int)
      ∧ (runIteration 8 { PylonCam.init with m_copyBuffIndex := 2 }
          (completion 5 false true)).cam.m_copyBuffIndex
          = ({ PylonCam.init with m_copyBuffIndex := 2 } : PylonCam).m_copyBuffIndex
      ∧ queuedSlots (runIteration 8 { PylonCam.init with m_copyBuffIndex := 2 }
          (completion 5 false true)).trace = [5]
      ∧ (runIteration 8 { PylonCam.init with m_copyBuffIndex := 2 }
          (completion 5 false true)).exit = false :=
  ⟨rfl, by decide, by decide, by decide,
    runIteration_occupied_requeues_arrival 8 { PylonCam.init with m_copyBuffIndex := 2 } 5
      true rfl (by decide) (by decide) (by decide)⟩

/-- C5: from an empty mailbox, once the producer has published an in-range slot `i`
(a completion of `i` handled with the lock free), the take step of `getNextFrame`
yields `i` and clears the mailbox, and a second take yields `-1` and leaves the mailbox
empty. -/
theorem take_after_publish (NUM_BUFFERS : Nat) (self : PylonCam) (i : Int)
    (hs : self.m_stopThread = false) (he : self.m_copyBuffIndex < 0) (h0 : 0 ≤ i)
    (h1 : i < (NUM_BUFFERS : Int)) :
    (runIteration NUM_BUFFERS self (completion i false true)).cam.m_copyBuffIndex = i
      ∧ takeIndex (runIteration NUM_BUFFERS self
          (completion i false true)).cam.m_copyBuffIndex = (i, -1)
      ∧ takeIndex (takeIndex (runIteration NUM_BUFFERS self
          (completion i false true)).cam.m_copyBuffIndex).2 = (-1, -1) := by
  rw [runIteration_completion NUM_BUFFERS self i true hs h0 h1]
  simp [he, takeIndex, h0]

/-- C5, for slot 0 of a pool of 8 and a freshly constructed object. -/
theorem take_after_publish_witness :
    PylonCam.init.m_stopThread = false
      ∧ PylonCam.init.m_copyBuffIndex < 0
      ∧ (0 : Int) ≤ 0 ∧ (0 : Int) < ((8 : Nat) : Int)
      ∧ (runIteration 8 PylonCam.init (completion 0 false true)).cam.m_copyBuffIndex = 0
      ∧ takeIndex (runIteration 8 PylonCam.init
          (completion 0 false true)).cam.m_copyBuffIndex = (0, -1)
      ∧ takeIndex (takeIndex (runIteration 8 PylonCam.init
          (completion 0 false true)).cam.m_copyBuffIndex).2 = (-1, -1) :=
  ⟨rfl, by decide, by decide, by decide,
    take_after_publish 8 PylonCam.init 0 rfl (by decide) (by decide) (by decide)⟩

/-- C6: when a turn of the loop, reached without the loop having left before and
without a stop request, retrieves a completion whose slot index is negative or at
least `NUM_BUFFERS`, the loop is left in that turn: the turns after it are never
executed, the trace gains only the wait and the retrieve calls (no queue call, no
mutex operation), and the object, the mailbox included, is as the turn found it. -/
theorem run_out_of_range_slot_exits (NUM_BUFFERS : Nat) (self : PylonCam)
    (pre rest : List Iteration) (o : Iteration)
    (hpre : (run NUM_BUFFERS self pre).exited = false)
    (hstop : (interfere o (run NUM_BUFFERS self pre).cam).m_stopThread = false)
    (hw : isError o.waitResult = false) (hwr : o.waitIsReady = true)
    (hg : isError o.retrieveResult = false) (hgr : o.retrieveIsReady = true)
    (hout : o.Context < 0 ∨ (NUM_BUFFERS : Int) ≤ o.Context) :
    (run NUM_BUFFERS self (pre ++ o :: rest)).exited = true
      ∧ (run NUM_BUFFERS self (pre ++ o :: rest)).pending = rest
      ∧ (run NUM_BUFFERS self (pre ++ o :: rest)).trace
          = (run NUM_BUFFERS self pre).trace ++ [Event.waitObjectWait, Event.retrieveResult]
      ∧ queuedSlots (run NUM_BUFFERS self (pre ++ o :: rest)).trace
          = queuedSlots (run NUM_BUFFERS self pre).trace
      ∧ (run NUM_BUFFERS self (pre ++ o :: rest)).cam
          = interfere o (run NUM_BUFFERS self pre).cam
      ∧ (o.framePulled = false →
          (run NUM_BUFFERS self (pre ++ o :: rest)).cam.m_copyBuffIndex
            = (run NUM_BUFFERS self pre).cam.m_copyBuffIndex) := by
  have hstep : runIteration NUM_BUFFERS (run NUM_BUFFERS self pre).cam o
      = { cam := interfere o (run NUM_BUFFERS self pre).cam
          trace := [Event.waitObjectWait, Event.retrieveResult]
          exit := true } := by
    simp [runIteration, hstop, hw, hwr, hg, hgr, hout]
  rw [run_append NUM_BUFFERS pre (o :: rest) self hpre]
  have hcam : o.framePulled = false →
      (interfere o (run NUM_BUFFERS self pre).cam).m_copyBuffIndex
        = (run NUM_BUFFERS self pre).cam.m_copyBuffIndex := by
    intro hp
    by_cases hq : o.stopRequested = true <;> simp [interfere, hp, hq]
  simp [run, hstep, queuedSlots_append, queuedSlots]
  exact hcam

/-- C6, with a pool of 8: a completion of slot 5 parks it, slot 8 is then retrieved,
and a completion of slot 1 is waiting behind it. -/
theorem run_out_of_range_slot_exits_witness :
    (run 8 PylonCam.init [completion 5 false true]).exited = false
      ∧ (interfere (completion 8 false true)
          (run 8 PylonCam.init [completion 5 false true]).cam).m_stopThread = false
      ∧ isError (completion 8 false true).waitResult = false
      ∧ (completion 8 false true).waitIsReady = true
      ∧ isError (completion 8 false true).retrieveResult = false
      ∧ (completion 8 false true).retrieveIsReady = true
      ∧ ((completion 8 false true).Context < 0
          ∨ ((8 : Nat) : Int) ≤ (completion 8 false true).Context)
      ∧ (run 8 PylonCam.init ([completion 5 false true]
          ++ completion 8 false true :: [completion 1 false true])).exited = true
      ∧ (run 8 PylonCam.init ([completion 5 false true]
          ++ completion 8 false true :: [completion 1 false true])).pending
          = [completion 1 false true]
      ∧ (run 8 PylonCam.init ([completion 5 false true]
          ++ completion 8 false true :: [completion 1 false true])).trace
          = (run 8 PylonCam.init [completion 5 false true]).trace
            ++ [Event.waitObjectWait, Event.retrieveResult]
      ∧ queuedSlots (run 8 PylonCam.init ([completion 5 false true]
          ++ completion 8 false true :: [completion 1 false true])).trace
          = queuedSlots (run 8 PylonCam.init [completion 5 false true]).trace
      ∧ (run 8 PylonCam.init ([completion 5 false true]
          ++ completion 8 false true :: [completion 1 false true])).cam
          = interfere (completion 8 false true)
              (run 8 PylonCam.init [completion 5 false true]).cam
      ∧ ((completion 8 false true).framePulled = false →
          (run 8 PylonCam.init ([completion 5 false true]
            ++ completion 8 false true :: [completion 1 false true])).cam.m_copyBuffIndex
            = (run 8 PylonCam.init [completion 5 false true]).cam.m_copyBuffIndex) :=
  ⟨by decide, by decide, by decide, rfl, by decide, rfl, Or.inr (by decide),
    run_out_of_range_slot_exits 8 PylonCam.init [completion 5 false true]
      [completion 1 false true] (completion 8 false true) (by decide) (by decide)
      (by decide) rfl (by decide) rfl (Or.inr (by decide))⟩

/-- C9 (as stated, refuted): with a pool of 8 and the mailbox holding slot 2, the
completion of slot 5 handled with the lock free makes `run` call
`PylonStreamGrabberQueueBuffer` between the `tryLock` and the `unlock`: a critical
section of its trace is not free of calls. -/
theorem run_queues_under_lock_counterexample :
    ¬ (∀ sec ∈ lockedSections none (run 8 { PylonCam.init with m_copyBuffIndex := 2 }
        [completion 5 false true]).trace, sec = []) := by
  decide

/-- C9 (amended): in every execution of `getNextFrame` nothing is called between the
lock and the unlock of the mailbox mutex; in every execution of `run`, a critical
section holds no call at all, or exactly one call, the re-queue of an in-range slot;
and within one turn of the loop that one call is the re-queue of the slot that just
completed, made when the lock was taken and the mailbox found occupied. -/
theorem critical_sections_calls :
    (∀ (self : PylonCam) (buf_id : Nat),
        ∀ sec ∈ lockedSections none (getNextFrame self buf_id).trace, sec = [])
      ∧ (∀ (NUM_BUFFERS : Nat) (self : PylonCam) (turns : List Iteration),
        ∀ sec ∈ lockedSections none (run NUM_BUFFERS self turns).trace,
          sec = [] ∨ ∃ j : Int, 0 ≤ j ∧ j < (NUM_BUFFERS : Int)
            ∧ sec = [Event.queueBuffer j])
      ∧ (∀ (NUM_BUFFERS : Nat) (self : PylonCam) (o : Iteration),
        ∀ sec ∈ lockedSections none (runIteration NUM_BUFFERS self o).trace,
          sec = [] ∨ (sec = [Event.queueBuffer o.Context] ∧ 0 ≤ o.Context
            ∧ o.Context < (NUM_BUFFERS : Int) ∧ o.tryLock = true
            ∧ 0 ≤ (interfere o self).m_copyBuffIndex)) := by
  refine ⟨?_, ?_, fun n self o => (runIteration_sections n self o).2⟩
  · intro self buf_id sec hsec
    unfold getNextFrame at hsec
    simp only [] at hsec
    split_ifs at hsec <;> simp_all [lockedSections]
  · intro n self turns
    induction turns generalizing self with
    | nil => simp [run, lockedSections]
    | cons o rest ih =>
      intro sec hsec
      have hone := runIteration_sections n self o
      have hshape : ∀ sec ∈ lockedSections none (runIteration n self o).trace,
          sec = [] ∨ ∃ j : Int, 0 ≤ j ∧ j < (n : Int) ∧ sec = [Event.queueBuffer j] := by
        intro sec hs
        rcases hone.2 sec hs with h | ⟨h, h0, h1, _, _⟩
        · exact Or.inl h
        · exact Or.inr ⟨o.Context, h0, h1, h⟩
      by_cases hx : (runIteration n self o).exit = true
      · simp only [run, hx, if_true] at hsec
        exact hshape sec hsec
      · simp only [run, hx] at hsec
        rw [if_neg (by simp), hone.1] at hsec
        rcases List.mem_append.mp hsec with h | h
        · exact hshape sec h
        · exact ih _ sec h

/-- C10: whenever an execution of `getNextFrame` re-queues a slot `j`, that slot is the
one the mailbox held and the take step yielded, and the calls of the execution are, in
this order, the copy of buffer `j` into the demosaic container, the demosaic call and a
single re-queue of `j`, all after the mutex was released. -/
theorem getNextFrame_requeue_last (self : PylonCam) (buf_id : Nat) (j : Int)
    (h : Event.queueBuffer j ∈ (getNextFrame self buf_id).trace) :
    self.m_copyBuffIndex = j
      ∧ (takeIndex self.m_copyBuffIndex).1 = j
      ∧ (getNextFrame self buf_id).trace
          = [Event.lock, Event.unlock, Event.mbufPut j, Event.mbufBayer buf_id,
            Event.queueBuffer j]
      ∧ queuedSlots (getNextFrame self buf_id).trace = [j] := by
  unfold getNextFrame at h ⊢
  simp only [] at h ⊢
  split_ifs at h ⊢ with hpos
  · have hj : (takeIndex self.m_copyBuffIndex).1 = j := by
      have hjs : j = (takeIndex self.m_copyBuffIndex).1 := by simpa using h
      exact hjs.symm
    have hm : self.m_copyBuffIndex = j := by
      unfold takeIndex at hj hpos
      split_ifs at hj hpos with hge
      · exact hj
      · simp at hpos
    refine ⟨hm, hj, ?_, ?_⟩ <;> simp [hj, queuedSlots]
  · simp at h

/-- C10, with the mailbox holding slot 3. -/
theorem getNextFrame_requeue_last_witness :
    Event.queueBuffer 3 ∈ (getNextFrame { PylonCam.init with m_copyBuffIndex := 3 } 7).trace
      ∧ ({ PylonCam.init with m_copyBuffIndex := 3 } : PylonCam).m_copyBuffIndex = 3
      ∧ (takeIndex
          ({ PylonCam.init with m_copyBuffIndex := 3 } : PylonCam).m_copyBuffIndex).1 = 3
      ∧ (getNextFrame { PylonCam.init with m_copyBuffIndex := 3 } 7).trace
          = [Event.lock, Event.unlock, Event.mbufPut 3, Event.mbufBayer 7,
            Event.queueBuffer 3]
      ∧ queuedSlots (getNextFrame { PylonCam.init with m_copyBuffIndex := 3 } 7).trace
          = [3] :=
  ⟨by decide,
    getNextFrame_requeue_last { PylonCam.init with m_copyBuffIndex := 3 } 7 3 (by decide)⟩

/-- C7 (as stated, refuted): on a camera opened by `open` with a pool of 8, when every
step of `startCapture` succeeds except the `AcquisitionStart` command, `startCapture`
returns false with the grabber handle still set, the stream grabber still open and all
8 buffers still registered and queued: the state is not the one before the call. -/
theorem startCapture_half_open_counterexample :
    StartEnv.acquisitionStartFails.allOk 8 = false
      ∧ («open» 8 OpenEnv.sample PylonCam.init).1 = true
      ∧ (startCapture 8 StartEnv.acquisitionStartFails
          («open» 8 OpenEnv.sample PylonCam.init).2 Session.idle).cam.m_hGrabber = 21
      ∧ (startCapture 8 StartEnv.acquisitionStartFails
          («open» 8 OpenEnv.sample PylonCam.init).2 Session.idle).session
          = { grabberOpen := true, registered := [0, 1, 2, 3, 4, 5, 6, 7],
              queued := [0, 1, 2, 3, 4, 5, 6, 7], acquiring := false,
              threadStarted := false }
      ∧ ¬ ((startCapture 8 StartEnv.acquisitionStartFails
            («open» 8 OpenEnv.sample PylonCam.init).2 Session.idle).ret = false
          ∧ (startCapture 8 StartEnv.acquisitionStartFails
            («open» 8 OpenEnv.sample PylonCam.init).2 Session.idle).cam.m_hGrabber = 0
          ∧ (startCapture 8 StartEnv.acquisitionStartFails
            («open» 8 OpenEnv.sample PylonCam.init).2 Session.idle).session
              = Session.idle) := by
  decide

/-- C7 (amended): if any step of `startCapture` fails, `startCapture` returns false,
the producer thread is not started, the camera is not set acquiring, and the mailbox
index, the stop flag and the device handle are as before the call. No clean-up is done
and no step after the failing one is executed: the object and the session are left
exactly as the steps before the failing one made them, namely
* nothing changed, when the channel count query, the channel count or the query of the
  stream grabber fails;
* only `m_hGrabber` set, when opening the stream grabber fails;
* `m_hGrabber` set and the grabber open, when the wait object cannot be obtained;
* also `m_hWait` set, when a buffer limit or prepare-grab fails;
* also slots `0 .. i-1` registered (their handles stored in `m_hBuff`) and none queued,
  when registering slot `i` fails;
* all slots registered and slots `0 .. i-1` queued, when queuing slot `i` fails;
* all slots registered and queued, when the `AcquisitionStart` command fails;
and one of these seven cases applies. -/
theorem startCapture_failure_keeps_progress (NUM_BUFFERS : Nat) (env : StartEnv)
    (self : PylonCam) (t : Session) (h : env.allOk NUM_BUFFERS = false) :
    ((startCapture NUM_BUFFERS env self t).ret = false
      ∧ (startCapture NUM_BUFFERS env self t).session.threadStarted = t.threadStarted
      ∧ (startCapture NUM_BUFFERS env self t).session.acquiring = t.acquiring
      ∧ (startCapture NUM_BUFFERS env self t).cam.m_copyBuffIndex = self.m_copyBuffIndex
      ∧ (startCapture NUM_BUFFERS env self t).cam.m_stopThread = self.m_stopThread
      ∧ (startCapture NUM_BUFFERS env self t).cam.m_hDev = self.m_hDev)
      ∧ (env.grabberObtained = false →
        startCapture NUM_BUFFERS env self t = { ret := false, cam := self, session := t })
      ∧ (env.grabberObtained = true → isError env.streamGrabberOpen = true →
        startCapture NUM_BUFFERS env self t
          = { ret := false, cam := { self with m_hGrabber := env.hGrabber }, session := t })
      ∧ (env.grabberObtained = true → isError env.streamGrabberOpen = false →
        isError env.getWaitObject = true →
        startCapture NUM_BUFFERS env self t
          = { ret := false, cam := { self with m_hGrabber := env.hGrabber }
              session := { t with grabberOpen := true } })
      ∧ (env.streamOpened = true → env.grabPrepared = false →
        startCapture NUM_BUFFERS env self t
          = { ret := false
              cam := { self with m_hGrabber := env.hGrabber, m_hWait := env.hWait }
              session := { t with grabberOpen := true } })
      ∧ (∀ i, i < NUM_BUFFERS → env.grabPrepared = true →
        (∀ k, k < i → isError (env.registerBuffer k) = false) →
        isError (env.registerBuffer i) = true →
        startCapture NUM_BUFFERS env self t
          = { ret := false
              cam := { self with
                m_hGrabber := env.hGrabber, m_hWait := env.hWait
                m_hBuff := fun k => if k < i then env.hBuff k else self.m_hBuff k }
              session := { t with
                grabberOpen := true, registered := t.registered ++ List.range i } })
      ∧ (∀ i, i < NUM_BUFFERS → env.grabPrepared = true →
        (∀ k, k < NUM_BUFFERS → isError (env.registerBuffer k) = false) →
        (∀ k, k < i → isError (env.queueBuffer k) = false) →
        isError (env.queueBuffer i) = true →
        startCapture NUM_BUFFERS env self t
          = { ret := false
              cam := { self with
                m_hGrabber := env.hGrabber, m_hWait := env.hWait
                m_hBuff := fun k => if k < NUM_BUFFERS then env.hBuff k else self.m_hBuff k }
              session := { t with
                grabberOpen := true
                registered := t.registered ++ List.range NUM_BUFFERS
                queued := t.queued ++ List.range i } })
      ∧ (env.grabPrepared = true →
        (∀ k, k < NUM_BUFFERS → isError (env.registerBuffer k) = false) →
        (∀ k, k < NUM_BUFFERS → isError (env.queueBuffer k) = false) →
        isError env.acquisitionStart = true →
        startCapture NUM_BUFFERS env self t
          = { ret := false
              cam := { self with
                m_hGrabber := env.hGrabber, m_hWait := env.hWait
                m_hBuff := fun k => if k < NUM_BUFFERS then env.hBuff k else self.m_hBuff k }
              session := { t with
                grabberOpen := true
                registered := t.registered ++ List.range NUM_BUFFERS
                queued := t.queued ++ List.range NUM_BUFFERS } })
      ∧ (env.grabberObtained = false
        ∨ (env.grabberObtained = true ∧ isError env.streamGrabberOpen = true)
        ∨ (env.grabberObtained = true ∧ isError env.streamGrabberOpen = false
            ∧ isError env.getWaitObject = true)
        ∨ (env.streamOpened = true ∧ env.grabPrepared = false)
        ∨ (env.grabPrepared = true ∧ ∃ i, i < NUM_BUFFERS
            ∧ (∀ k, k < i → isError (env.registerBuffer k) = false)
            ∧ isError (env.registerBuffer i) = true)
        ∨ (env.grabPrepared = true
            ∧ (∀ k, k < NUM_BUFFERS → isError (env.registerBuffer k) = false)
            ∧ ∃ i, i < NUM_BUFFERS ∧ (∀ k, k < i → isError (env.queueBuffer k) = false)
              ∧ isError (env.queueBuffer i) = true)
        ∨ (env.grabPrepared = true
            ∧ (∀ k, k < NUM_BUFFERS → isError (env.registerBuffer k) = false)
            ∧ (∀ k, k < NUM_BUFFERS → isError (env.queueBuffer k) = false)
            ∧ isError env.acquisitionStart = true)) := by
  have hf := startCapture_facts NUM_BUFFERS env self t
  have hret : (startCapture NUM_BUFFERS env self t).ret = false := by
    cases hr : (startCapture NUM_BUFFERS env self t).ret with
    | false => rfl
    | true => rw [hf.2 hr] at h; exact absurd h (by decide)
  obtain ⟨h1, h2, h3, h4, h5, _, _, _⟩ := hf.1 hret
  obtain ⟨e1, e2, e3, e4, e5, e6, e7⟩ := startCapture_exact NUM_BUFFERS env self t
  refine ⟨⟨hret, h4, h5, h1, h2, h3⟩, e1, e2, e3, e4, e5, e6, e7, ?_⟩
  rcases startCapture_failure_cases NUM_BUFFERS env h with c | c | c | c | c | c
  · exact Or.inl c
  · obtain ⟨c1, c2⟩ := c
    have hso : (isError env.streamGrabberOpen = true)
        ∨ (isError env.streamGrabberOpen = false ∧ isError env.getWaitObject = true) := by
      simp only [StartEnv.streamOpened, c1, Bool.true_and] at c2
      cases ha : isError env.streamGrabberOpen <;> cases hb : isError env.getWaitObject <;>
        simp [ha, hb] at c2 ⊢
    rcases hso with ho | ⟨ho, hw⟩
    · exact Or.inr (Or.inl ⟨c1, ho⟩)
    · exact Or.inr (Or.inr (Or.inl ⟨c1, ho, hw⟩))
  · exact Or.inr (Or.inr (Or.inr (Or.inl c)))
  · exact Or.inr (Or.inr (Or.inr (Or.inr (Or.inl c))))
  · exact Or.inr (Or.inr (Or.inr (Or.inr (Or.inr (Or.inl c)))))
  · exact Or.inr (Or.inr (Or.inr (Or.inr (Or.inr (Or.inr c)))))

/-- C7 (amended), on the camera opened by `open` with a pool of 8, when only the
`AcquisitionStart` command fails: `startCapture` returns false with the grabber handle
and the wait handle set, the grabber open and all 8 buffers registered and queued. -/
theorem startCapture_failure_keeps_progress_witness :
    StartEnv.acquisitionStartFails.allOk 8 = false
      ∧ ((startCapture 8 StartEnv.acquisitionStartFails
            («open» 8 OpenEnv.sample PylonCam.init).2 Session.idle).ret = false
        ∧ (startCapture 8 StartEnv.acquisitionStartFails
            («open» 8 OpenEnv.sample PylonCam.init).2 Session.idle).session.threadStarted
            = Session.idle.threadStarted
        ∧ (startCapture 8 StartEnv.acquisitionStartFails
            («open» 8 OpenEnv.sample PylonCam.init).2 Session.idle).session.acquiring
            = Session.idle.acquiring
        ∧ (startCapture 8 StartEnv.acquisitionStartFails
            («open» 8 OpenEnv.sample PylonCam.init).2 Session.idle).cam.m_copyBuffIndex
            = («open» 8 OpenEnv.sample PylonCam.init).2.m_copyBuffIndex
        ∧ (startCapture 8 StartEnv.acquisitionStartFails
            («open» 8 OpenEnv.sample PylonCam.init).2 Session.idle).cam.m_stopThread
            = («open» 8 OpenEnv.sample PylonCam.init).2.m_stopThread
        ∧ (startCapture 8 StartEnv.acquisitionStartFails
            («open» 8 OpenEnv.sample PylonCam.init).2 Session.idle).cam.m_hDev
            = («open» 8 OpenEnv.sample PylonCam.init).2.m_hDev)
      ∧ startCapture 8 StartEnv.acquisitionStartFails
          («open» 8 OpenEnv.sample PylonCam.init).2 Session.idle
          = { ret := false
              cam := { («open» 8 OpenEnv.sample PylonCam.init).2 with
                m_hGrabber := StartEnv.acquisitionStartFails.hGrabber
                m_hWait := StartEnv.acquisitionStartFails.hWait
                m_hBuff := fun k =>
                  if k < 8 then StartEnv.acquisitionStartFails.hBuff k
                  else («open» 8 OpenEnv.sample PylonCam.init).2.m_hBuff k }
              session := { Session.idle with
                grabberOpen := true
                registered := Session.idle.registered ++ List.range 8
                queued := Session.idle.queued ++ List.range 8 } } :=
  ⟨by decide,
    (startCapture_failure_keeps_progress 8 StartEnv.acquisitionStartFails
      («open» 8 OpenEnv.sample PylonCam.init).2 Session.idle (by decide)).1,
    (startCapture_failure_keeps_progress 8 StartEnv.acquisitionStartFails
      («open» 8 OpenEnv.sample PylonCam.init).2 Session.idle
      (by decide)).2.2.2.2.2.2.2.1 (by decide) (by decide) (by decide) (by decide)⟩

/-- C8 (evaluated where it fails): with a pool of 8, when every step of `open`
succeeds up to the image dimensions and the allocation of the demosaic image buffer
then fails, `open` returns false and leaves the device handle set (`isOpen` is true)
and the image width and height at 640 and 480: the object is not fully closed. -/
theorem open_bayer_failure_stays_open :
    («open» 8 OpenEnv.bayerAllocFails PylonCam.init).1 = false
      ∧ («open» 8 OpenEnv.bayerAllocFails PylonCam.init).2.m_hDev = 1
      ∧ isOpen («open» 8 OpenEnv.bayerAllocFails PylonCam.init).2 = true
      ∧ («open» 8 OpenEnv.bayerAllocFails PylonCam.init).2.m_imgWidth = 640
      ∧ («open» 8 OpenEnv.bayerAllocFails PylonCam.init).2.m_imgHeight = 480
      ∧ ¬ fullyClosed 8 («open» 8 OpenEnv.bayerAllocFails PylonCam.init).2 := by
  refine ⟨by decide, by decide, by decide, by decide, by decide, fun hc => ?_⟩
  exact absurd hc.1 (by decide)

end QtGigECam
